import Mathlib

/-!
# Verification of the deepagents Confluence/JIRA tool modules

Shallow embedding of `deepagents_cli/confluence_tools.py` and
`deepagents_cli/jira_tools.py`.

Modelling conventions:
* Python dicts returned to the caller, and JSON response bodies, are modelled
  by the inductive type `Json` (numbers as `Int`; floats do not occur in the
  modelled code paths).
* Python `None` is modelled by `Json.null`; `dict.get(k)` on a missing key and
  a JSON `null` value both become `Json.null`, matching Python where both are
  `None`.
* The HTTP layer (`requests`) is modelled by a transport oracle
  `Transport : Nat → ReqOutcome` scripting the outcome of the n-th issued
  request, together with a trace (list) of the requests actually issued.
  Issuing a request appends it to the trace whether it succeeds or raises a
  transport error.  `Response.ok` is `status_code < 400`, as in `requests`.
* Python exceptions are modelled by `PyExc`; `requests` raises a
  `ValueError`-compatible exception from `resp.json()` on an undecodable body,
  which is what `PyExc.valueError` records.  Stateful computations that may
  raise live in the monad `PyM σ`.
* `settings.has_confluence` / `settings.has_jira` come from
  `deepagents_cli/config.py`, which is not part of the sources; they are
  modelled from the spec as "all three credential fields set"
  (`ServiceConfig.is_configured`).
* Python attribute errors arising from calling `.get` on a non-mapping JSON
  value are not modelled (`Json.get` returns `none` there); the theorems below
  only constrain response bodies of mapping shape at those points.
* `str.lower` is modelled by `pyLowerStr` (ASCII case mapping).
* Fixed request headers and the fixed 30-second timeout are not recorded in
  the request trace: no modelled claim observes them.
-/

/-- A Python exception, as far as the modelled code can observe it. -/
inductive PyExc where
  /-- `ValueError`; raised by the request builders when unconfigured and by
  `resp.json()` on an undecodable body. -/
  | valueError (msg : String)
  /-- `requests.exceptions.RequestException`: transport-level failure. -/
  | requestException (msg : String)
  /-- `KeyError` from `d[k]` indexing. -/
  | keyError (key : String)
  /-- `AttributeError`, e.g. `.lower()` on a non-string. -/
  | attributeError
  /-- `TypeError`, e.g. iterating a non-list. -/
  | typeError
deriving Repr, DecidableEq

/-- JSON values; also used for the Python dicts the tools return. -/
inductive Json where
  | null
  | boolean (b : Bool)
  | num (n : Int)
  | str (s : String)
  | arr (elems : List Json)
  | obj (fields : List (String × Json))
deriving Repr

/-- First-match association lookup, as a Python dict read. -/
def Json.lookup : List (String × Json) → String → Option Json
  | [], _ => none
  | (k, v) :: rest, key => if k = key then some v else Json.lookup rest key

/-- Python `d.get(k)`: `some` value on a mapping with the key, else `none`.
(`AttributeError` on non-mappings is not modelled; see the header.) -/
def Json.get : Json → String → Option Json
  | .obj l, k => Json.lookup l k
  | _, _ => none

/-- Python `d.get(k, default)`. -/
def Json.getD (j : Json) (k : String) (d : Json) : Json :=
  (j.get k).getD d

/-- Python `d.get(k)` used as a value: missing key and JSON null both give
Python `None`, i.e. `Json.null`. -/
def Json.getN (j : Json) (k : String) : Json :=
  (j.get k).getD .null

/-- Python truthiness of a JSON value. -/
def Json.truthy : Json → Bool
  | .null => false
  | .boolean b => b
  | .num n => n != 0
  | .str s => s != ""
  | .arr l => !l.isEmpty
  | .obj l => !l.isEmpty

/-- Python truthiness of an optional string argument (`None` and `""` are
falsy). -/
def optTruthy : Option String → Bool
  | none => false
  | some s => s != ""

/-- Set-or-override one key in an association list, keeping first-binding
positions, as Python `d[k] = v`. -/
def assocSet (l : List (String × Json)) (k : String) (v : Json) :
    List (String × Json) :=
  if l.any (fun p => p.1 = k) then
    l.map (fun p => if p.1 = k then (k, v) else p)
  else
    l ++ [(k, v)]

/-- Python `d.update(extra)`. -/
def dictUpdate (d extra : List (String × Json)) : List (String × Json) :=
  extra.foldl (fun acc kv => assocSet acc kv.1 kv.2) d

/-- Python `s.rstrip("/")`. -/
def rstripSlash (s : String) : String :=
  ⟨(s.data.reverse.dropWhile (fun c => c = '/')).reverse⟩

/-- Substring test on character lists (is `pat` a contiguous sublist?). -/
def subListOf (pat : List Char) : List Char → Bool
  | [] => pat.isEmpty
  | c :: rest => pat.isPrefixOf (c :: rest) || subListOf pat rest

/-- Python `pat in s` on strings. -/
def strContains (s pat : String) : Bool :=
  subListOf pat.data s.data

/-- Python `str(n)` for an `int`. -/
def intStr (n : Int) : String := toString n

/-- ASCII lower-casing of one character (Python `str.lower`, ASCII
range). -/
def pyLowerChar (c : Char) : Char :=
  if 65 ≤ c.toNat && c.toNat ≤ 90 then Char.ofNat (c.toNat + 32) else c

/-- Python `s.lower()` on a string (ASCII-accurate). -/
def pyLowerStr (s : String) : String := ⟨s.data.map pyLowerChar⟩

/-- An HTTP request as issued by the request builders.  Fixed headers and the
fixed timeout are omitted (see the header comment). -/
structure HttpRequest where
  method : String
  url : String
  authUser : String
  authPass : String
  verify : Bool
  params : List (String × String)
  jsonBody : Option Json
deriving Repr

/-- An HTTP response.  `jsonBody = none` models a body that is not valid
JSON, on which `resp.json()` raises. -/
structure HttpResponse where
  status : Nat
  text : String
  jsonBody : Option Json
deriving Repr

/-- `requests.Response.ok`: status below 400. -/
def HttpResponse.isOk (r : HttpResponse) : Bool := r.status < 400

/-- Outcome of dispatching one HTTP request. -/
inductive ReqOutcome where
  /-- A response came back (any status). -/
  | success (resp : HttpResponse)
  /-- `requests.exceptions.RequestException` with message `msg`. -/
  | failure (msg : String)
deriving Repr

/-- Scripted transport: outcome of the n-th request issued in the session. -/
def Transport := Nat → ReqOutcome

/-- The per-service slice of `deepagents_cli.config.settings`. -/
structure ServiceConfig where
  url : Option String
  username : Option String
  password : Option String
  verifySsl : Bool
deriving Repr

/-- Modelled from the spec: `settings.has_confluence` / `settings.has_jira`
(from `deepagents_cli/config.py`, which is not among the sources) — derived
boolean, true iff base URL, username and password are all set. -/
def ServiceConfig.is_configured (c : ServiceConfig) : Bool :=
  c.url.isSome && c.username.isSome && c.password.isSome

/-- Stateful Python computation over state `σ` that may raise. -/
def PyM (σ : Type) (α : Type) : Type := σ → Except PyExc α × σ

instance : Monad (PyM σ) where
  pure a := fun s => (.ok a, s)
  bind m f := fun s =>
    match m s with
    | (.ok a, s2) => f a s2
    | (.error e, s2) => (.error e, s2)

/-- Raise a Python exception. -/
def PyM.throwExc (e : PyExc) : PyM σ α := fun s => (.error e, s)

/-- Lift a pure `Except` computation. -/
def PyM.ofExcept (r : Except PyExc α) : PyM σ α := fun s => (r, s)

/-- `resp.json()`: parsed body, or a `ValueError`-compatible exception when
the body is not valid JSON (as `requests` raises). -/
def HttpResponse.jsonM (r : HttpResponse) : PyM σ Json :=
  match r.jsonBody with
  | some j => pure j
  | none => PyM.throwExc (.valueError "Invalid JSON")

/-- Python `for t in x` preparation: the elements when `x` is a list, else a
`TypeError`. -/
def Json.asPyList : Json → PyM σ (List Json)
  | .arr l => pure l
  | _ => PyM.throwExc .typeError

/-- A JSON value used where Python requires a `str`; `TypeError` otherwise
(e.g. `re.sub` applied to a non-string body value). -/
def Json.asPyStr : Json → PyM σ String
  | .str s => pure s
  | _ => PyM.throwExc .typeError

/-- `_err` (identical in both modules): the standard error envelope. -/
def errD (msg : String) : Json :=
  .obj [("success", .boolean false), ("error", .str msg)]

/-- `_resp_err` (identical in both modules). -/
def resp_err (label : String) (resp : HttpResponse) : Json :=
  errD (label ++ " (" ++ toString resp.status ++ "): " ++ resp.text)

/-- `_get_nested`: `d[key][nested]` when `d[key]` is truthy, else `None`. -/
def get_nested (d : Json) (key nested : String) : Json :=
  let val := d.getN key
  if val.truthy then val.getN nested else .null

/-- The shared `try/except` tail of every tool operation: `ValueError`
becomes the service's NotConfigured envelope, `RequestException` becomes the
request-error envelope, anything else propagates. -/
def PyM.catchTool (notConfMsg errLabel : String) (m : PyM σ Json) :
    PyM σ Json := fun s =>
  match m s with
  | (.ok j, s2) => (.ok j, s2)
  | (.error (.valueError _), s2) => (.ok (errD notConfMsg), s2)
  | (.error (.requestException msg), s2) =>
      (.ok (errD (errLabel ++ msg)), s2)
  | (.error e, s2) => (.error e, s2)

/-! ## HTML-to-text normalizer (`_strip_html_tags`)

The four `re.sub` passes and the newline collapse are embedded as
fuel-indexed character-list scans reproducing `re.sub`'s left-to-right,
non-overlapping replacement discipline.  The fuel equals the input length,
which suffices because every match consumes at least one character. -/

/-- Python whitespace for `\s` and `str.strip()` (ASCII range). -/
def isPyWs (c : Char) : Bool :=
  c = ' ' || c = '\t' || c = '\n' || c = '\r' || c = '\x0b' || c = '\x0c'

/-- Length of the leading run of whitespace. -/
def countLeadingWs : List Char → Nat
  | [] => 0
  | c :: rest => if isPyWs c then countLeadingWs rest + 1 else 0

/-- Match of `br\s*/?>` (the tail of `<br\s*/?>`, case-insensitive) at the
start of the list; returns the number of characters consumed. -/
def matchBrTail : List Char → Option Nat
  | b :: r :: rest =>
    if (b = 'b' || b = 'B') && (r = 'r' || r = 'R') then
      let k := countLeadingWs rest
      match rest.drop k with
      | '/' :: '>' :: _ => some (2 + k + 2)
      | '>' :: _ => some (2 + k + 1)
      | _ => none
    else none
  | _ => none

/-- Match of the alternation `p|div|h[1-6]|li|tr` (case-insensitive) at the
start of the list; returns the matched length.  The alternatives have
pairwise-distinct first letters, so the regex needs no backtracking here. -/
def matchAlt : List Char → Option Nat
  | [] => none
  | c :: rest =>
    if c = 'p' || c = 'P' then some 1
    else if c = 'd' || c = 'D' then
      match rest with
      | i :: v :: _ =>
        if (i = 'i' || i = 'I') && (v = 'v' || v = 'V') then some 3 else none
      | _ => none
    else if c = 'h' || c = 'H' then
      match rest with
      | d :: _ =>
        if d = '1' || d = '2' || d = '3' || d = '4' || d = '5' || d = '6' then
          some 2
        else none
      | _ => none
    else if c = 'l' || c = 'L' then
      match rest with
      | i :: _ => if i = 'i' || i = 'I' then some 2 else none
      | _ => none
    else if c = 't' || c = 'T' then
      match rest with
      | r :: _ => if r = 'r' || r = 'R' then some 2 else none
      | _ => none
    else none

/-- Index of the first `>` in the list. -/
def findGtIdx : List Char → Option Nat
  | [] => none
  | c :: rest => if c = '>' then some 0 else (findGtIdx rest).map (· + 1)

/-- Match of `/(p|div|h[1-6]|li|tr)>` (tail of the closing-tag pattern). -/
def matchCloseTail : List Char → Option Nat
  | '/' :: rest =>
    match matchAlt rest with
    | some k =>
      match rest.drop k with
      | '>' :: _ => some (1 + k + 1)
      | _ => none
    | none => none
  | _ => none

/-- Match of `(p|div|h[1-6]|li|tr)[^>]*>` (tail of the opening-tag pattern):
the alternation, then everything up to the first `>`. -/
def matchOpenTail (cs : List Char) : Option Nat :=
  match matchAlt cs with
  | some k =>
    match findGtIdx (cs.drop k) with
    | some m => some (k + m + 1)
    | none => none
  | none => none

/-- Match of `[^>]+>` (tail of the strip-remaining-tags pattern `<[^>]+>`). -/
def matchAnyTagTail (cs : List Char) : Option Nat :=
  match findGtIdx cs with
  | some 0 => none
  | some m => some (m + 1)
  | none => none

/-- One `re.sub` pass for a pattern of the form `<` + tail: scan left to
right, replace each match by `repl`, continue after the match. -/
def subTagAux (matchTail : List Char → Option Nat) (repl : List Char) :
    Nat → List Char → List Char
  | 0, l => l
  | _ + 1, [] => []
  | fuel + 1, c :: cs =>
    if c = '<' then
      match matchTail cs with
      | some n => repl ++ subTagAux matchTail repl fuel (cs.drop n)
      | none => c :: subTagAux matchTail repl fuel cs
    else c :: subTagAux matchTail repl fuel cs

/-- `re.sub` for a `<`-anchored tag pattern over a whole list. -/
def subTag (matchTail : List Char → Option Nat) (repl : List Char)
    (l : List Char) : List Char :=
  subTagAux matchTail repl l.length l

/-- Length of the leading run of newlines. -/
def countLeadingNl : List Char → Nat
  | [] => 0
  | c :: rest => if c = '\n' then countLeadingNl rest + 1 else 0

/-- `re.sub(r"\n{3,}", "\n\n", ·)`: collapse runs of three or more newlines
to exactly two. -/
def collapseNlAux : Nat → List Char → List Char
  | 0, l => l
  | _ + 1, [] => []
  | fuel + 1, c :: cs =>
    if c = '\n' then
      let k := countLeadingNl cs
      (if 3 ≤ k + 1 then ['\n', '\n'] else List.replicate (k + 1) '\n')
        ++ collapseNlAux fuel (cs.drop k)
    else c :: collapseNlAux fuel cs

/-- Newline collapse over a whole list. -/
def collapseNl (l : List Char) : List Char := collapseNlAux l.length l

/-- Python `str.strip()` (ASCII whitespace). -/
def stripChars (l : List Char) : List Char :=
  ((l.dropWhile isPyWs).reverse.dropWhile isPyWs).reverse

/-- The whole `_strip_html_tags` pipeline on character lists: the four
regex passes, the newline collapse, and the final strip. -/
def stripHtmlChars (l : List Char) : List Char :=
  stripChars (collapseNl
    (subTag matchAnyTagTail []
      (subTag matchOpenTail []
        (subTag matchCloseTail ['\n']
          (subTag matchBrTail ['\n'] l)))))

/-- `_strip_html_tags` from `confluence_tools.py`. -/
def strip_html_tags (html : String) : String :=
  ⟨stripHtmlChars html.data⟩

/-! ## Confluence module state and request builder -/

/-- Process state seen by `confluence_tools.py`: the settings slice, the
transport oracle, and the trace of issued requests. -/
structure ConfState where
  config : ServiceConfig
  transport : Transport
  trace : List HttpRequest

/-- The `ValueError` message raised by `_confluence_request` when
unconfigured. -/
def confluenceRaiseMsg : String :=
  "Confluence is not configured. Set CONFLUENCE_URL and credentials (CONFLUENCE_USERNAME/PASSWORD or JIRA_USERNAME/PASSWORD)."

/-- `_NOT_CONFIGURED_MSG` from `confluence_tools.py`. -/
def confluenceNotConfiguredMsg : String :=
  "Confluence is not configured. Ask the user for their Confluence URL, username, and password, then call confluence_configure(url, username, password) before retrying."

/-- `_confluence_request`: fail fast when unconfigured, else compose the
absolute URL, attach basic auth, and dispatch via the transport.  The issued
request is appended to the trace whether or not the transport fails. -/
def confluence_request (method path : String)
    (params : List (String × String)) (jsonBody : Option Json)
    (verify_ssl : Option Bool) : PyM ConfState HttpResponse := fun st =>
  if !st.config.is_configured then
    (.error (.valueError confluenceRaiseMsg), st)
  else
    let req : HttpRequest :=
      { method := method
        url := rstripSlash (st.config.url.getD "") ++ path
        authUser := st.config.username.getD ""
        authPass := st.config.password.getD ""
        verify := verify_ssl.getD st.config.verifySsl
        params := params
        jsonBody := jsonBody }
    match st.transport st.trace.length with
    | .success r => (.ok r, { st with trace := st.trace ++ [req] })
    | .failure m =>
        (.error (.requestException m), { st with trace := st.trace ++ [req] })

/-- `confluence_configure`: store the trimmed URL and the credentials;
report success unconditionally. -/
def confluence_configure (url username password : String) :
    PyM ConfState Json := fun st =>
  (.ok (.obj [("success", .boolean true),
              ("message", .str ("Confluence configured for " ++ url))]),
   { st with config := { st.config with
       url := some (rstripSlash url)
       username := some username
       password := some password } })

/-! ## Confluence tool operations -/

/-- The CQL operators/keywords recognized by `confluence_search`. -/
def confluenceCqlOps : List String :=
  ["=", "~", "AND", "OR", "NOT", "IN", "type", "space", "label"]

/-- The CQL-building logic at the top of `confluence_search`: the optional
space-scoping of a CQL query, then the free-text wrap when no recognized
operator occurs (substring tests, case-sensitive, as in the source). -/
def buildCql (query : String) (space_key : Option String) : String :=
  let cql := query
  let cql :=
    if optTruthy space_key && !strContains (pyLowerStr query) "space" then
      "space = \"" ++ space_key.getD "" ++ "\" AND (" ++ query ++ ")"
    else cql
  if !(confluenceCqlOps.any (fun op => strContains query op)) then
    let wrapped := "type = page AND text ~ \"" ++ query ++ "\""
    if optTruthy space_key then
      "space = \"" ++ space_key.getD "" ++ "\" AND " ++ wrapped
    else wrapped
  else cql

/-- Label extraction in `confluence_search`: `[]` unless
`metadata.labels.results` is truthy, else the `name` of each entry. -/
def stripLabelNames (lblResults : Json) : PyM σ (List Json) :=
  if lblResults.truthy then do
    let ls ← lblResults.asPyList
    pure (ls.map (fun lbl => lbl.getN "name"))
  else pure []

/-- Per-item flattening in `confluence_search`. -/
def flattenSearchItem (item : Json) : PyM σ Json := do
  let metadata := item.getD "metadata" (.obj [])
  let labels ← stripLabelNames ((metadata.getD "labels" (.obj [])).getN "results")
  let space := item.getN "space"
  pure (.obj [("id", item.getN "id"), ("title", item.getN "title"),
    ("type", item.getN "type"),
    ("space_key", if space.truthy then space.getN "key" else Json.null),
    ("labels", .arr labels),
    ("url", (item.getD "_links" (.obj [])).getN "webui")])

/-- `confluence_search`. -/
def confluence_search (query : String) (max_results : Int)
    (space_key : Option String) (verify_ssl : Option Bool) :
    PyM ConfState Json :=
  let cql := buildCql query space_key
  let params := [("cql", cql), ("limit", intStr max_results),
                 ("expand", "metadata.labels")]
  PyM.catchTool confluenceNotConfiguredMsg "Confluence request error: " (do
    let resp ← confluence_request "GET" "/rest/api/content/search" params
      none verify_ssl
    if !resp.isOk then
      pure (resp_err "Confluence search failed" resp)
    else do
      let data ← resp.jsonM
      let items ← (data.getD "results" (.arr [])).asPyList
      let results ← items.mapM flattenSearchItem
      pure (.obj [("success", .boolean true),
                  ("total", data.getD "totalSize" (.num 0)),
                  ("results", .arr results)]))

/-- Python string interpolation of an optional string (`None` prints as
`None`). -/
def pyFStr : Option String → String
  | some s => s
  | none => "None"

/-- Python `x[0]` on a list value; `TypeError` on non-lists. -/
def Json.pyHead : Json → PyM σ Json
  | .arr l => pure (l.headD .null)
  | _ => PyM.throwExc .typeError

/-- Python `s + 1` for the fetched version number; `TypeError` when the JSON
value is not an integer. -/
def pyAddOne : Json → PyM σ Int
  | .num n => pure (n + 1)
  | _ => PyM.throwExc .typeError

/-- Python `s.lower()`; `AttributeError` on non-strings. -/
def pyLowerE : Json → Except PyExc String
  | .str s => .ok (pyLowerStr s)
  | _ => .error .attributeError

/-- The body/space flattening shared by both `confluence_get_page` lookup
branches. -/
def confluencePageResult (data : Json) : PyM σ Json := do
  let body_storage :=
    ((data.getD "body" (.obj [])).getD "storage" (.obj [])).getD "value" (.str "")
  let bs ← body_storage.asPyStr
  let space := data.getN "space"
  pure (.obj [("success", .boolean true),
    ("id", data.getN "id"), ("title", data.getN "title"),
    ("space_key", if space.truthy then space.getN "key" else Json.null),
    ("version", (data.getD "version" (.obj [])).getN "number"),
    ("body_html", body_storage),
    ("body_text", .str (strip_html_tags bs)),
    ("url", (data.getD "_links" (.obj [])).getN "webui")])

/-- Response handling shared by both `confluence_get_page` branches: status
check, JSON decode, and — for the title lookup — extraction from the
`results` array with the not-found error. -/
def confluenceGetPageTail (resp : HttpResponse)
    (page_id title space_key : Option String) : PyM σ Json :=
  if !resp.isOk then pure (resp_err "Failed to get page" resp)
  else do
    let data ← resp.jsonM
    if !(optTruthy page_id) then do
      let results := data.getD "results" (.arr [])
      if !results.truthy then
        pure (errD ("No page found with title '" ++ pyFStr title ++
          "' in space '" ++ pyFStr space_key ++ "'."))
      else do
        let first ← results.pyHead
        confluencePageResult first
    else
      confluencePageResult data

/-- `confluence_get_page`: lookup by id, or by title+space via a limit-1
listing; validation error when neither is supplied. -/
def confluence_get_page (page_id title space_key : Option String)
    (verify_ssl : Option Bool) : PyM ConfState Json :=
  let expand := "body.storage,version,space"
  PyM.catchTool confluenceNotConfiguredMsg "Confluence request error: " (
    if optTruthy page_id then do
      let resp ← confluence_request "GET"
        ("/rest/api/content/" ++ pyFStr page_id)
        [("expand", expand)] none verify_ssl
      confluenceGetPageTail resp page_id title space_key
    else if optTruthy title && optTruthy space_key then do
      let resp ← confluence_request "GET" "/rest/api/content"
        [("title", pyFStr title), ("spaceKey", pyFStr space_key),
         ("expand", expand), ("limit", "1")] none verify_ssl
      confluenceGetPageTail resp page_id title space_key
    else
      pure (errD "Provide either page_id or both title and space_key."))

/-- `confluence_create_page`. -/
def confluence_create_page (space_key title body : String)
    (parent_id : Option String) (verify_ssl : Option Bool) :
    PyM ConfState Json :=
  let payload0 : List (String × Json) :=
    [("type", .str "page"), ("title", .str title),
     ("space", .obj [("key", .str space_key)]),
     ("body", .obj [("storage", .obj [("value", .str body),
        ("representation", .str "storage")])])]
  let payload :=
    if optTruthy parent_id then
      assocSet payload0 "ancestors"
        (.arr [.obj [("id", .str (pyFStr parent_id))]])
    else payload0
  PyM.catchTool confluenceNotConfiguredMsg "Confluence request error: " (do
    let resp ← confluence_request "POST" "/rest/api/content" []
      (some (.obj payload)) verify_ssl
    if !resp.isOk then pure (resp_err "Failed to create page" resp)
    else do
      let data ← resp.jsonM
      pure (.obj [("success", .boolean true), ("id", data.getN "id"),
        ("title", data.getN "title"),
        ("url", (data.getD "_links" (.obj [])).getN "webui")]))

/-- A `try/except` block whose normal path produces `Sum.inl` early-return
envelopes or a `Sum.inr` payload; caught exceptions become `Sum.inl`
envelopes (used for the first block of `confluence_update_page`). -/
def PyM.catchStep (notConfMsg errLabel : String) (m : PyM σ (Sum Json α)) :
    PyM σ (Sum Json α) := fun s =>
  match m s with
  | (.ok v, s2) => (.ok v, s2)
  | (.error (.valueError _), s2) => (.ok (.inl (errD notConfMsg)), s2)
  | (.error (.requestException msg), s2) =>
      (.ok (.inl (errD (errLabel ++ msg))), s2)
  | (.error e, s2) => (.error e, s2)

/-- The first block of `confluence_update_page`: fetch the page's current
version number; early-return (`inl`) the error envelope on any failure. -/
def confluenceUpdateStep1 (page_id : String) (verify_ssl : Option Bool) :
    PyM ConfState (Sum Json Json) := do
  let get_resp ← confluence_request "GET" ("/rest/api/content/" ++ page_id)
    [("expand", "version")] none verify_ssl
  if !get_resp.isOk then
    pure (Sum.inl (resp_err "Failed to get page version" get_resp))
  else do
    let data ← get_resp.jsonM
    pure (Sum.inr ((data.getD "version" (.obj [])).getD "number" (.num 0)))

/-- `confluence_update_page`: version fetch (first `try`), then payload
construction and the PUT (second `try`). -/
def confluence_update_page (page_id title body : String)
    (version_comment : Option String) (verify_ssl : Option Bool) :
    PyM ConfState Json := do
  let step1 ← PyM.catchStep confluenceNotConfiguredMsg
    "Confluence request error: " (confluenceUpdateStep1 page_id verify_ssl)
  match step1 with
  | .inl e => pure e
  | .inr current_version => do
    let n ← pyAddOne current_version
    let version_payload0 : List (String × Json) := [("number", .num n)]
    let version_payload :=
      if optTruthy version_comment then
        assocSet version_payload0 "message" (.str (pyFStr version_comment))
      else version_payload0
    let payload : Json := .obj [("type", .str "page"), ("title", .str title),
      ("body", .obj [("storage", .obj [("value", .str body),
        ("representation", .str "storage")])]),
      ("version", .obj version_payload)]
    PyM.catchTool confluenceNotConfiguredMsg "Confluence request error: " (do
      let resp ← confluence_request "PUT" ("/rest/api/content/" ++ page_id)
        [] (some payload) verify_ssl
      if !resp.isOk then pure (resp_err "Failed to update page" resp)
      else do
        let data ← resp.jsonM
        pure (.obj [("success", .boolean true), ("id", data.getN "id"),
          ("title", data.getN "title"),
          ("version", (data.getD "version" (.obj [])).getN "number"),
          ("url", (data.getD "_links" (.obj [])).getN "webui")]))

/-! ## Python `repr` (used by the transition-not-found f-string) -/

/-- Lower-case hex digit. -/
def hexDigit (n : Nat) : Char :=
  if n < 10 then Char.ofNat (48 + n) else Char.ofNat (87 + n)

/-- Two-digit lower-case hex of a byte. -/
def hexByte (n : Nat) : String :=
  String.mk [hexDigit (n / 16 % 16), hexDigit (n % 16)]

/-- One character of CPython `repr` for strings (ASCII-accurate). -/
def pyCharEsc (quote : Char) (c : Char) : String :=
  if c = '\\' then "\\\\"
  else if c = quote then "\\" ++ quote.toString
  else if c = '\n' then "\\n"
  else if c = '\r' then "\\r"
  else if c = '\t' then "\\t"
  else if c.toNat < 32 || c.toNat = 127 then "\\x" ++ hexByte c.toNat
  else c.toString

/-- CPython `repr` of a `str` (ASCII-accurate): single quotes unless the
string contains a single quote but no double quote. -/
def pyStrRepr (s : String) : String :=
  let quote : Char :=
    if s.data.contains '\'' && !(s.data.contains '"') then '"' else '\''
  quote.toString ++ String.join (s.data.map (pyCharEsc quote)) ++
    quote.toString

mutual

/-- CPython `repr`/`str` of a parsed-JSON Python value. -/
def pyRepr : Json → String
  | .null => "None"
  | .boolean b => if b then "True" else "False"
  | .num n => toString n
  | .str s => pyStrRepr s
  | .arr l => "[" ++ pyReprList l ++ "]"
  | .obj l => "\x7b" ++ pyReprObj l ++ "\x7d"

/-- Comma-separated `repr`s of list elements. -/
def pyReprList : List Json → String
  | [] => ""
  | [j] => pyRepr j
  | j :: rest => pyRepr j ++ ", " ++ pyReprList rest

/-- Comma-separated `key: value` `repr`s of dict entries. -/
def pyReprObj : List (String × Json) → String
  | [] => ""
  | [(k, v)] => pyStrRepr k ++ ": " ++ pyRepr v
  | (k, v) :: rest => pyStrRepr k ++ ": " ++ pyRepr v ++ ", " ++ pyReprObj rest

end

/-! ## JIRA module state and request builder -/

/-- Process state seen by `jira_tools.py`: the settings slice, the module's
`_api_version` cache, the transport oracle, and the request trace. -/
structure JiraState where
  config : ServiceConfig
  apiVersion : Option String
  transport : Transport
  trace : List HttpRequest

/-- The `ValueError` message raised by `_jira_request` when unconfigured. -/
def jiraRaiseMsg : String :=
  "JIRA is not configured. Set JIRA_URL, JIRA_USERNAME, and JIRA_PASSWORD."

/-- `_NOT_CONFIGURED_MSG` from `jira_tools.py`. -/
def jiraNotConfiguredMsg : String :=
  "JIRA is not configured. Ask the user for their JIRA URL, username, and password, then call jira_configure(url, username, password) before retrying."

/-- `_jira_request`: identical structure to `_confluence_request`. -/
def jira_request (method path : String) (params : List (String × String))
    (jsonBody : Option Json) (verify_ssl : Option Bool) :
    PyM JiraState HttpResponse := fun st =>
  if !st.config.is_configured then
    (.error (.valueError jiraRaiseMsg), st)
  else
    let req : HttpRequest :=
      { method := method
        url := rstripSlash (st.config.url.getD "") ++ path
        authUser := st.config.username.getD ""
        authPass := st.config.password.getD ""
        verify := verify_ssl.getD st.config.verifySsl
        params := params
        jsonBody := jsonBody }
    match st.transport st.trace.length with
    | .success r => (.ok r, { st with trace := st.trace ++ [req] })
    | .failure m =>
        (.error (.requestException m), { st with trace := st.trace ++ [req] })

/-- `_detect_api_version`: return the cache when set; otherwise probe
`GET /rest/api/2/serverInfo`, swallow every exception (the `except
Exception: pass` in the source), and cache and return the fixed string
`"2"` regardless of the probe's outcome. -/
def detect_api_version (verify_ssl : Option Bool) : PyM JiraState String :=
  fun st =>
  match st.apiVersion with
  | some v => (.ok v, st)
  | none =>
    let out := jira_request "GET" "/rest/api/2/serverInfo" [] none verify_ssl st
    (.ok "2", { out.2 with apiVersion := some "2" })

/-- `jira_configure`: store the trimmed URL and credentials, reset the
version cache, report success unconditionally. -/
def jira_configure (url username password : String) :
    PyM JiraState Json := fun st =>
  (.ok (.obj [("success", .boolean true),
              ("message", .str ("JIRA configured for " ++ url))]),
   { st with
       config := { st.config with
         url := some (rstripSlash url)
         username := some username
         password := some password }
       apiVersion := none })

/-! ## JIRA tool operations -/

/-- Default field list of `jira_search`. -/
def jiraDefaultFields : List String :=
  ["key", "summary", "status", "assignee", "priority", "created", "updated"]

/-- Per-issue flattening in `jira_search`. -/
def flattenIssue (issue : Json) : Json :=
  let f := issue.getD "fields" (.obj [])
  .obj [("key", issue.getN "key"), ("summary", f.getN "summary"),
    ("status", get_nested f "status" "name"),
    ("assignee", get_nested f "assignee" "displayName"),
    ("priority", get_nested f "priority" "name"),
    ("created", f.getN "created"), ("updated", f.getN "updated")]

/-- `jira_search`. -/
def jira_search (jql : String) (max_results : Int)
    (fields : Option (List String)) (verify_ssl : Option Bool) :
    PyM JiraState Json := do
  let _ ← detect_api_version verify_ssl
  let flds := fields.getD jiraDefaultFields
  let payload : Json := .obj [("jql", .str jql),
    ("maxResults", .num max_results),
    ("fields", .arr (flds.map Json.str))]
  PyM.catchTool jiraNotConfiguredMsg "JIRA request error: " (do
    let resp ← jira_request "POST" "/rest/api/2/search" []
      (some payload) verify_ssl
    if !resp.isOk then pure (resp_err "JIRA search failed" resp)
    else do
      let data ← resp.jsonM
      let items ← (data.getD "issues" (.arr [])).asPyList
      pure (.obj [("success", .boolean true),
        ("total", data.getD "total" (.num 0)),
        ("issues", .arr (items.map flattenIssue))]))

/-- Per-comment flattening in `jira_get_issue`. -/
def flattenComment (c : Json) : Json :=
  .obj [("author", (c.getD "author" (.obj [])).getN "displayName"),
        ("body", c.getN "body"), ("created", c.getN "created")]

/-- `jira_get_issue`. -/
def jira_get_issue (issue_key : String) (expand : Option String)
    (verify_ssl : Option Bool) : PyM JiraState Json := do
  let _ ← detect_api_version verify_ssl
  let params := if optTruthy expand then [("expand", pyFStr expand)] else []
  PyM.catchTool jiraNotConfiguredMsg "JIRA request error: " (do
    let resp ← jira_request "GET" ("/rest/api/2/issue/" ++ issue_key)
      params none verify_ssl
    if !resp.isOk then pure (resp_err "Failed to get issue" resp)
    else do
      let data ← resp.jsonM
      let f := data.getD "fields" (.obj [])
      let comment_data := f.getD "comment" (.obj [])
      let cs ← (comment_data.getD "comments" (.arr [])).asPyList
      pure (.obj [("success", .boolean true), ("key", data.getN "key"),
        ("summary", f.getN "summary"),
        ("description", f.getN "description"),
        ("status", get_nested f "status" "name"),
        ("assignee", get_nested f "assignee" "displayName"),
        ("reporter", get_nested f "reporter" "displayName"),
        ("priority", get_nested f "priority" "name"),
        ("issue_type", get_nested f "issuetype" "name"),
        ("labels", f.getD "labels" (.arr [])),
        ("created", f.getN "created"), ("updated", f.getN "updated"),
        ("comments", .arr (cs.map flattenComment))]))

/-- `jira_create_issue`. -/
def jira_create_issue (project_key summary issue_type : String)
    (description priority assignee : Option String)
    (labels : Option (List String))
    (custom_fields : Option (List (String × Json)))
    (verify_ssl : Option Bool) : PyM JiraState Json := do
  let _ ← detect_api_version verify_ssl
  let fields0 : List (String × Json) :=
    [("project", .obj [("key", .str project_key)]),
     ("summary", .str summary),
     ("issuetype", .obj [("name", .str issue_type)])]
  let fields1 := match description with
    | some d => assocSet fields0 "description" (.str d)
    | none => fields0
  let fields2 := match priority with
    | some p => assocSet fields1 "priority" (.obj [("name", .str p)])
    | none => fields1
  let fields3 := match assignee with
    | some a => assocSet fields2 "assignee" (.obj [("name", .str a)])
    | none => fields2
  let fields4 := match labels with
    | some ls => assocSet fields3 "labels" (.arr (ls.map Json.str))
    | none => fields3
  let fields := match custom_fields with
    | some cf => if cf.isEmpty then fields4 else dictUpdate fields4 cf
    | none => fields4
  PyM.catchTool jiraNotConfiguredMsg "JIRA request error: " (do
    let resp ← jira_request "POST" "/rest/api/2/issue" []
      (some (.obj [("fields", .obj fields)])) verify_ssl
    if !resp.isOk then pure (resp_err "Failed to create issue" resp)
    else do
      let data ← resp.jsonM
      pure (.obj [("success", .boolean true), ("key", data.getN "key"),
        ("id", data.getN "id"), ("self", data.getN "self")]))

/-- The sparse fields object built by `jira_update_issue` from the supplied
optionals (`is not None` tests for the named fields, truthiness for
`custom_fields`, override-on-collision merge). -/
def jiraUpdateFields (summary description assignee : Option String)
    (labels : Option (List String)) (priority : Option String)
    (custom_fields : Option (List (String × Json))) :
    List (String × Json) :=
  let fields0 : List (String × Json) := []
  let fields1 := match summary with
    | some s => assocSet fields0 "summary" (.str s)
    | none => fields0
  let fields2 := match description with
    | some d => assocSet fields1 "description" (.str d)
    | none => fields1
  let fields3 := match assignee with
    | some a => assocSet fields2 "assignee" (.obj [("name", .str a)])
    | none => fields2
  let fields4 := match labels with
    | some ls => assocSet fields3 "labels" (.arr (ls.map Json.str))
    | none => fields3
  let fields5 := match priority with
    | some p => assocSet fields4 "priority" (.obj [("name", .str p)])
    | none => fields4
  match custom_fields with
  | some cf => if cf.isEmpty then fields5 else dictUpdate fields5 cf
  | none => fields5

/-- `jira_update_issue`: sparse fields object, validation error when empty,
else the PUT. -/
def jira_update_issue (issue_key : String)
    (summary description assignee : Option String)
    (labels : Option (List String)) (priority : Option String)
    (custom_fields : Option (List (String × Json)))
    (verify_ssl : Option Bool) : PyM JiraState Json := do
  let _ ← detect_api_version verify_ssl
  let fields := jiraUpdateFields summary description assignee labels
    priority custom_fields
  if fields.isEmpty then pure (errD "No fields to update.")
  else
    PyM.catchTool jiraNotConfiguredMsg "JIRA request error: " (do
      let resp ← jira_request "PUT" ("/rest/api/2/issue/" ++ issue_key) []
        (some (.obj [("fields", .obj fields)])) verify_ssl
      if !resp.isOk then pure (resp_err "Failed to update issue" resp)
      else pure (.obj [("success", .boolean true),
        ("key", .str issue_key)]))

/-- `jira_add_comment`. -/
def jira_add_comment (issue_key body : String) (verify_ssl : Option Bool) :
    PyM JiraState Json := do
  let _ ← detect_api_version verify_ssl
  PyM.catchTool jiraNotConfiguredMsg "JIRA request error: " (do
    let resp ← jira_request "POST"
      ("/rest/api/2/issue/" ++ issue_key ++ "/comment") []
      (some (.obj [("body", .str body)])) verify_ssl
    if !resp.isOk then pure (resp_err "Failed to add comment" resp)
    else do
      let data ← resp.jsonM
      pure (.obj [("success", .boolean true), ("id", data.getN "id"),
        ("author", (data.getD "author" (.obj [])).getN "displayName"),
        ("body", data.getN "body"), ("created", data.getN "created")]))

/-- Python `t.get(k, d)` where `t` must be a mapping (`AttributeError`
otherwise), as in the transition matching loop. -/
def pyGetDE (t : Json) (k : String) (d : Json) : Except PyExc Json :=
  match t with
  | .obj l => .ok ((Json.lookup l k).getD d)
  | _ => .error .attributeError

/-- Python `d[k]` indexing: `KeyError` when the key is absent. -/
def Json.pyIndex (j : Json) (k : String) : PyM σ Json :=
  match j.get k with
  | some v => pure v
  | none => PyM.throwExc (.keyError k)

/-- The matching loop of `jira_transition_issue`: the first transition whose
`name` (default `""`) lowercases to `target`.  The loop performs no I/O, so
it is embedded at the `Except` level and lifted with `PyM.ofExcept`. -/
def findTransition (target : String) : List Json → Except PyExc (Option Json)
  | [] => .ok none
  | t :: rest => do
    let nm ← pyGetDE t "name" (.str "")
    let s ← pyLowerE nm
    if s = target then pure (some t) else findTransition target rest

/-- The `[t.get("name") for t in transitions]` comprehension: names in
order, `AttributeError` at the first non-mapping element. -/
def getTransitionNames : List Json → Except PyExc (List Json)
  | [] => .ok []
  | t :: rest => do
    let nm ← pyGetDE t "name" Json.null
    let rest2 ← getTransitionNames rest
    pure (nm :: rest2)

/-- `jira_transition_issue`: list transitions, match case-insensitively,
execute the match; enumerate the available names when there is none. -/
def jira_transition_issue (issue_key transition_name : String)
    (verify_ssl : Option Bool) : PyM JiraState Json := do
  let _ ← detect_api_version verify_ssl
  PyM.catchTool jiraNotConfiguredMsg "JIRA request error: " (do
    let resp ← jira_request "GET"
      ("/rest/api/2/issue/" ++ issue_key ++ "/transitions") []
      none verify_ssl
    if !resp.isOk then pure (resp_err "Failed to get transitions" resp)
    else do
      let data ← resp.jsonM
      let transitions ← (data.getD "transitions" (.arr [])).asPyList
      let target := pyLowerStr transition_name
      let matched ← PyM.ofExcept (findTransition target transitions)
      if !(match matched with | some m => m.truthy | none => false) then do
        let available ← PyM.ofExcept (getTransitionNames transitions)
        pure (errD ("Transition '" ++ transition_name ++
          "' not found. Available: " ++ pyRepr (.arr available)))
      else do
        let m := match matched with | some m => m | none => Json.null
        let tid ← m.pyIndex "id"
        let resp2 ← jira_request "POST"
          ("/rest/api/2/issue/" ++ issue_key ++ "/transitions") []
          (some (.obj [("transition", .obj [("id", tid)])])) verify_ssl
        if !resp2.isOk then pure (resp_err "Failed to transition" resp2)
        else pure (.obj [("success", .boolean true),
          ("key", .str issue_key), ("transition", m.getN "name"),
          ("to_status", (m.getD "to" (.obj [])).getN "name")]))

/-! ## Helper lemmas and concrete fixtures -/

/-- Unfolding of `bind` in `PyM`. -/
theorem PyM.bind_def {σ α β : Type} (m : PyM σ α) (f : α → PyM σ β)
    (s : σ) :
    (m >>= f) s =
      match m s with
      | (.ok a, s2) => f a s2
      | (.error e, s2) => (.error e, s2) := rfl

/-- Unfolding of `pure` in `PyM`. -/
theorem PyM.pure_def {σ α : Type} (a : α) (s : σ) :
    (pure a : PyM σ α) s = (.ok a, s) := rfl

/-- `errD` determines its message. -/
theorem errD_inj {a b : String} (h : errD a = errD b) : a = b := by
  simpa [errD] using h

/-- `dropWhile` is idempotent. -/
theorem dropWhile_idem {α : Type} (p : α → Bool) (l : List α) :
    (l.dropWhile p).dropWhile p = l.dropWhile p := by
  induction l with
  | nil => rfl
  | cons c cs ih =>
    by_cases h : p c = true
    · simp [List.dropWhile_cons, h, ih]
    · simp [List.dropWhile_cons, h]

/-- `rstrip("/")` is idempotent. -/
theorem rstripSlash_idem (s : String) :
    rstripSlash (rstripSlash s) = rstripSlash s := by
  unfold rstripSlash
  simp [dropWhile_idem]

/-- The empty pattern is a sublist of anything. -/
theorem subListOf_nil (l : List Char) : subListOf [] l = true := by
  induction l with
  | nil => rfl
  | cons c cs ih => simp [subListOf, List.isPrefixOf]

/-- A list occurring contiguously in the middle is found by `subListOf`. -/
theorem subListOf_middle (pat a b : List Char) :
    subListOf pat (a ++ pat ++ b) = true := by
  induction a with
  | nil =>
    cases pat with
    | nil => simpa using subListOf_nil b
    | cons c cs =>
      simp only [List.nil_append, subListOf, Bool.or_eq_true]
      left
      simp [List.isPrefixOf_iff_prefix]
  | cons c cs ih =>
    cases hp : pat with
    | nil => simpa [hp] using subListOf_nil (c :: (cs ++ b))
    | cons d ds =>
      rw [← hp]
      simp only [List.cons_append, subListOf, Bool.or_eq_true]
      right
      exact ih

/-- Python `in` finds a contiguous middle occurrence. -/
theorem strContains_middle (a t b : String) :
    strContains (a ++ t ++ b) t = true := by
  unfold strContains
  rw [String.data_append, String.data_append]
  exact subListOf_middle t.data a.data b.data

/-- The request `_confluence_request`/`_jira_request` would issue from a
given settings slice. -/
def builtReq (c : ServiceConfig) (method path : String)
    (params : List (String × String)) (jsonBody : Option Json)
    (v : Option Bool) : HttpRequest :=
  { method := method
    url := rstripSlash (c.url.getD "") ++ path
    authUser := c.username.getD ""
    authPass := c.password.getD ""
    verify := v.getD c.verifySsl
    params := params
    jsonBody := jsonBody }

/-- The JIRA version-probe request as issued from settings `c`. -/
def probeReq (c : ServiceConfig) (v : Option Bool) : HttpRequest :=
  builtReq c "GET" "/rest/api/2/serverInfo" [] none v

/-- A transport that always fails at the socket level. -/
def failTransport : Transport := fun _ => .failure "connection refused"

/-- A transport that always returns the same response. -/
def constTransport (r : HttpResponse) : Transport := fun _ => .success r

/-- Unconfigured settings. -/
def unsetConfig : ServiceConfig :=
  { url := none, username := none, password := none, verifySsl := true }

/-- Configured settings for witnesses. -/
def readyConfig : ServiceConfig :=
  { url := some "https://example.invalid"
    username := some "alice"
    password := some "secret"
    verifySsl := true }

/-- An unconfigured Confluence state with an empty trace. -/
def confStateUnset : ConfState :=
  { config := unsetConfig, transport := failTransport, trace := [] }

/-- A configured Confluence state with an empty trace. -/
def confStateReady (t : Transport) : ConfState :=
  { config := readyConfig, transport := t, trace := [] }

/-- An unconfigured JIRA state with an empty trace and unset version cache. -/
def jiraStateUnset : JiraState :=
  { config := unsetConfig, apiVersion := none, transport := failTransport
    trace := [] }

/-- A configured JIRA state with an empty trace. -/
def jiraStateReady (apiVersion : Option String) (t : Transport) :
    JiraState :=
  { config := readyConfig, apiVersion := apiVersion, transport := t
    trace := [] }

/-! ## Claim C6: the API-version probe -/

/-- C6: with the version cache unset, `_detect_api_version` returns the
fixed string "2" and caches it, whatever the configuration and whatever the
transport does (failure, any status, any body); no exception escapes (the
result is always `.ok`). -/
theorem claim_C6_api_version_probe (st : JiraState) (v : Option Bool)
    (h : st.apiVersion = none) :
    (detect_api_version v st).1 = .ok "2" ∧
    (detect_api_version v st).2.apiVersion = some "2" := by
  unfold detect_api_version
  rw [h]
  exact ⟨rfl, rfl⟩

/-- C6 witness: concrete unconfigured state with a failing transport. -/
theorem claim_C6_witness :
    jiraStateUnset.apiVersion = none ∧
    (detect_api_version none jiraStateUnset).1 = .ok "2" ∧
    (detect_api_version none jiraStateUnset).2.apiVersion = some "2" :=
  ⟨rfl, (claim_C6_api_version_probe jiraStateUnset none rfl).1,
    (claim_C6_api_version_probe jiraStateUnset none rfl).2⟩

/-! ## Claim C4: free-text CQL construction -/

/-- C4 counterexample: with the empty string supplied as `space_key` (a
given but Python-falsy value), the built CQL lacks the `space = "" AND`
prefix the claim requires for every given `space_key`. -/
theorem claim_C4_counterexample :
    buildCql "deployment issues" (some "") =
      "type = page AND text ~ \"deployment issues\"" ∧
    buildCql "deployment issues" (some "") ≠
      "space = \"\" AND type = page AND text ~ \"deployment issues\"" := by
  exact ⟨by decide, by decide⟩

/-- C4 (amended: a given `space_key` must be non-empty, Python truthiness):
for every query containing none of the recognized CQL operators/keywords,
the built CQL is exactly the free-text wrap, space-prefixed exactly when a
non-empty `space_key` is supplied. -/
theorem claim_C4_cql_freetext (query sk : String)
    (hops : ∀ op ∈ confluenceCqlOps, strContains query op = false)
    (hsk : sk ≠ "") :
    buildCql query none = "type = page AND text ~ \"" ++ query ++ "\"" ∧
    buildCql query (some sk) =
      "space = \"" ++ sk ++ "\" AND type = page AND text ~ \"" ++
        query ++ "\"" := by
  have hany : confluenceCqlOps.any (fun op => strContains query op) = false := by
    rw [List.any_eq_false]
    intro op hop
    simp [hops op hop]
  unfold buildCql
  simp only [hany, Bool.not_false, if_true, optTruthy, bne_iff_ne, ne_eq,
    hsk, not_false_eq_true, ite_true, ite_false]
  constructor
  · rfl
  · apply String.ext
    simp [String.data_append, List.append_assoc]

/-- C4 witness: the claim's own example, `search("deployment issues")`,
with and without `space_key="DEV"`. -/
theorem claim_C4_witness :
    (∀ op ∈ confluenceCqlOps, strContains "deployment issues" op = false) ∧
    ("DEV" : String) ≠ "" ∧
    buildCql "deployment issues" none =
      "type = page AND text ~ \"deployment issues\"" ∧
    buildCql "deployment issues" (some "DEV") =
      "space = \"DEV\" AND type = page AND text ~ \"deployment issues\"" := by
  refine ⟨by decide, by decide, ?_, ?_⟩
  · exact (claim_C4_cql_freetext "deployment issues" "DEV" (by decide)
      (by decide)).1
  · have h := (claim_C4_cql_freetext "deployment issues" "DEV" (by decide)
      (by decide)).2
    rw [h]
    rfl

/-! ## Claim C2: `jira_update_issue` with no fields -/

/-- C2 counterexample: in a configured state whose version cache is unset,
`jira_update_issue` with no optional fields does return the validation
error, but one HTTP request (the version probe) is issued, not zero. -/
theorem claim_C2_counterexample :
    (jira_update_issue "PROJ-1" none none none none none none none
        (jiraStateReady none failTransport)).1 =
      .ok (errD "No fields to update.") ∧
    (jira_update_issue "PROJ-1" none none none none none none none
        (jiraStateReady none failTransport)).2.trace.length = 1 :=
  ⟨rfl, rfl⟩

/-- C2 (amended: the call issues no HTTP request beyond the API-version
probe, which fires exactly when JIRA is configured and the version cache is
unset): with no optional field supplied the result is always the
`"No fields to update."` validation error. -/
theorem claim_C2_update_no_fields (st : JiraState) (key : String)
    (v : Option Bool) :
    (jira_update_issue key none none none none none none v st).1 =
      .ok (errD "No fields to update.") ∧
    (jira_update_issue key none none none none none none v st).2.trace =
      st.trace ++
        (match st.apiVersion, st.config.is_configured with
         | none, true => [probeReq st.config v]
         | _, _ => []) := by
  unfold jira_update_issue
  rw [PyM.bind_def]
  unfold detect_api_version
  cases hA : st.apiVersion with
  | some ver =>
    simp [jiraUpdateFields, PyM.pure_def]
  | none =>
    unfold jira_request
    cases hC : st.config.is_configured with
    | false =>
      simp [hC, jiraUpdateFields, PyM.pure_def]
    | true =>
      cases hT : st.transport st.trace.length with
      | success r =>
        simp [hC, hT, jiraUpdateFields, PyM.pure_def, probeReq, builtReq]
      | failure m =>
        simp [hC, hT, jiraUpdateFields, PyM.pure_def, probeReq, builtReq]

/-! ## Claim C7: `confluence_get_page` validation and empty title lookup -/

/-- A 200 response whose body is `{"results": []}`. -/
def emptyResultsResp : HttpResponse :=
  { status := 200, text := "\x7b\"results\": []\x7d"
    jsonBody := some (.obj [("results", .arr [])]) }

/-- C7: (1) with neither `page_id` nor both `title` and `space_key`
supplied, `confluence_get_page` returns the validation error and issues no
request; (2) with `title` and `space_key` (no `page_id`), when the title
listing succeeds with an empty `results` array, the result is an error whose
message contains both the title and the space key. -/
theorem claim_C7_get_page_validation :
    (∀ (st : ConfState) (title space_key : Option String) (v : Option Bool),
      title = none ∨ space_key = none →
      (confluence_get_page none title space_key v st).1 =
        .ok (errD "Provide either page_id or both title and space_key.") ∧
      (confluence_get_page none title space_key v st).2.trace = st.trace) ∧
    (∀ (st : ConfState) (t sk : String) (v : Option Bool)
        (r : HttpResponse) (data : Json),
      st.config.is_configured = true → t ≠ "" → sk ≠ "" →
      st.transport st.trace.length = .success r → r.isOk = true →
      r.jsonBody = some data → data.getD "results" (.arr []) = .arr [] →
      (confluence_get_page none (some t) (some sk) v st).1 =
        .ok (errD ("No page found with title '" ++ t ++ "' in space '" ++
          sk ++ "'.")) ∧
      strContains ("No page found with title '" ++ t ++ "' in space '" ++
        sk ++ "'.") t = true ∧
      strContains ("No page found with title '" ++ t ++ "' in space '" ++
        sk ++ "'.") sk = true) := by
  constructor
  · intro st title space_key v h
    have hts : (optTruthy title && optTruthy space_key) = false := by
      rcases h with h | h <;> simp [h, optTruthy]
    have hp : optTruthy (none : Option String) = false := rfl
    unfold confluence_get_page
    simp [PyM.catchTool, hp, hts, PyM.pure_def]
  · intro st t sk v r data hC ht hsk hT hok hjson hres
    refine ⟨?_, ?_, ?_⟩
    · unfold confluence_get_page confluence_request confluenceGetPageTail
      simp [optTruthy, bne_iff_ne, ht, hsk, hC, hT, hok, hjson, hres,
        PyM.catchTool, PyM.bind_def, PyM.pure_def, HttpResponse.jsonM,
        pyFStr, Json.truthy]
    · have h1 := strContains_middle "No page found with title '" t
        ("' in space '" ++ sk ++ "'.")
      simpa [String.append_assoc] using h1
    · have h1 := strContains_middle
        ("No page found with title '" ++ t ++ "' in space '") sk "'."
      simpa [String.append_assoc] using h1

/-- C7 witness: both branches at concrete inputs (no arguments at all; and
`title="X"`, `space_key="DEV"` against a 200 listing with empty results). -/
theorem claim_C7_witness :
    ((confluence_get_page none none none none
        (confStateReady failTransport)).1 =
      .ok (errD "Provide either page_id or both title and space_key.") ∧
     (confluence_get_page none none none none
        (confStateReady failTransport)).2.trace = []) ∧
    ((confluence_get_page none (some "X") (some "DEV") none
        (confStateReady (constTransport emptyResultsResp))).1 =
      .ok (errD "No page found with title 'X' in space 'DEV'.") ∧
     strContains "No page found with title 'X' in space 'DEV'." "X" = true ∧
     strContains "No page found with title 'X' in space 'DEV'." "DEV" =
       true) := by
  constructor
  · exact claim_C7_get_page_validation.1 (confStateReady failTransport)
      none none none (Or.inl rfl)
  · have h := claim_C7_get_page_validation.2
      (confStateReady (constTransport emptyResultsResp)) "X" "DEV" none
      emptyResultsResp (.obj [("results", .arr [])])
      rfl (by decide) (by decide) rfl rfl rfl rfl
    exact h

/-! ## Claim C10: success status with an undecodable body -/

/-- A 200 response whose body is not valid JSON. -/
def invalidJsonResp : HttpResponse :=
  { status := 200, text := "<html>proxy page</html>", jsonBody := none }

/-- C10: when the HTTP request of `confluence_search` / `jira_search` /
`jira_get_issue` comes back with a success status but an undecodable body,
the operation returns the service's fixed NotConfigured error envelope,
because `resp.json()` raises a `ValueError` caught by the handler that also
maps the not-configured condition. -/
theorem claim_C10_invalid_json_maps_to_not_configured :
    (∀ (st : ConfState) (q : String) (mr : Int) (sk : Option String)
        (v : Option Bool) (r : HttpResponse),
      st.config.is_configured = true →
      st.transport st.trace.length = .success r →
      r.isOk = true → r.jsonBody = none →
      (confluence_search q mr sk v st).1 =
        .ok (errD confluenceNotConfiguredMsg)) ∧
    (∀ (st : JiraState) (jql : String) (mr : Int)
        (flds : Option (List String)) (v : Option Bool) (r : HttpResponse),
      st.config.is_configured = true →
      (∀ i, st.transport i = .success r) →
      r.isOk = true → r.jsonBody = none →
      (jira_search jql mr flds v st).1 = .ok (errD jiraNotConfiguredMsg)) ∧
    (∀ (st : JiraState) (key : String) (e : Option String)
        (v : Option Bool) (r : HttpResponse),
      st.config.is_configured = true →
      (∀ i, st.transport i = .success r) →
      r.isOk = true → r.jsonBody = none →
      (jira_get_issue key e v st).1 = .ok (errD jiraNotConfiguredMsg)) := by
  refine ⟨?_, ?_, ?_⟩
  · intro st q mr sk v r hC hT hok hjson
    unfold confluence_search confluence_request
    simp [hC, hT, hok, hjson, PyM.catchTool, PyM.bind_def, PyM.pure_def,
      HttpResponse.jsonM, PyM.throwExc]
  · intro st jql mr flds v r hC hT hok hjson
    unfold jira_search detect_api_version jira_request
    cases hA : st.apiVersion with
    | some ver =>
      simp [hA, hC, hT, hok, hjson, PyM.catchTool, PyM.bind_def,
        PyM.pure_def, HttpResponse.jsonM, PyM.throwExc]
    | none =>
      simp [hA, hC, hT, hok, hjson, PyM.catchTool, PyM.bind_def,
        PyM.pure_def, HttpResponse.jsonM, PyM.throwExc]
  · intro st key e v r hC hT hok hjson
    unfold jira_get_issue detect_api_version jira_request
    cases hA : st.apiVersion with
    | some ver =>
      simp [hA, hC, hT, hok, hjson, PyM.catchTool, PyM.bind_def,
        PyM.pure_def, HttpResponse.jsonM, PyM.throwExc]
    | none =>
      simp [hA, hC, hT, hok, hjson, PyM.catchTool, PyM.bind_def,
        PyM.pure_def, HttpResponse.jsonM, PyM.throwExc]

/-- C10 witness: concrete configured states receiving a 200 non-JSON body on
every request. -/
theorem claim_C10_witness :
    (confluence_search "q" 10 none none
        (confStateReady (constTransport invalidJsonResp))).1 =
      .ok (errD confluenceNotConfiguredMsg) ∧
    (jira_search "project = P" 20 none none
        (jiraStateReady none (constTransport invalidJsonResp))).1 =
      .ok (errD jiraNotConfiguredMsg) ∧
    (jira_get_issue "P-1" none none
        (jiraStateReady (some "2") (constTransport invalidJsonResp))).1 =
      .ok (errD jiraNotConfiguredMsg) := by
  refine ⟨?_, ?_, ?_⟩
  · exact claim_C10_invalid_json_maps_to_not_configured.1
      (confStateReady (constTransport invalidJsonResp)) "q" 10 none none
      invalidJsonResp rfl rfl (by decide) rfl
  · exact claim_C10_invalid_json_maps_to_not_configured.2.1
      (jiraStateReady none (constTransport invalidJsonResp)) "project = P"
      20 none none invalidJsonResp rfl (fun i => rfl) (by decide) rfl
  · exact claim_C10_invalid_json_maps_to_not_configured.2.2
      (jiraStateReady (some "2") (constTransport invalidJsonResp)) "P-1"
      none none invalidJsonResp rfl (fun i => rfl) (by decide) rfl

/-! ## Claim C3: `confluence_update_page` aborts when the version fetch
fails -/

/-- C3: whenever the initial GET of `confluence_update_page` fails —
unconfigured, transport error, or non-success HTTP status — the operation
returns that failure's error envelope and the PUT is never attempted (the
trace gains at most the one GET request). -/
theorem claim_C3_update_page_aborts (st : ConfState)
    (pid title body : String) (vc : Option String) (v : Option Bool) :
    (st.config.is_configured = false →
      (confluence_update_page pid title body vc v st).1 =
        .ok (errD confluenceNotConfiguredMsg) ∧
      (confluence_update_page pid title body vc v st).2.trace = st.trace) ∧
    (∀ m, st.config.is_configured = true →
      st.transport st.trace.length = .failure m →
      (confluence_update_page pid title body vc v st).1 =
        .ok (errD ("Confluence request error: " ++ m)) ∧
      (confluence_update_page pid title body vc v st).2.trace =
        st.trace ++ [builtReq st.config "GET" ("/rest/api/content/" ++ pid)
          [("expand", "version")] none v]) ∧
    (∀ r, st.config.is_configured = true →
      st.transport st.trace.length = .success r → r.isOk = false →
      (confluence_update_page pid title body vc v st).1 =
        .ok (resp_err "Failed to get page version" r) ∧
      (confluence_update_page pid title body vc v st).2.trace =
        st.trace ++ [builtReq st.config "GET" ("/rest/api/content/" ++ pid)
          [("expand", "version")] none v]) := by
  refine ⟨?_, ?_, ?_⟩
  · intro hC
    unfold confluence_update_page PyM.catchStep confluenceUpdateStep1
      confluence_request
    simp [hC, PyM.catchTool, PyM.bind_def, PyM.pure_def]
  · intro m hC hT
    unfold confluence_update_page PyM.catchStep confluenceUpdateStep1
      confluence_request
    simp [hC, hT, PyM.catchTool, PyM.bind_def, PyM.pure_def, builtReq]
  · intro r hC hT hok
    unfold confluence_update_page PyM.catchStep confluenceUpdateStep1
      confluence_request
    simp [hC, hT, hok, PyM.catchTool, PyM.bind_def, PyM.pure_def, builtReq]

/-- A 404 response with a JSON error body. -/
def notFoundResp : HttpResponse :=
  { status := 404, text := "\x7b\"message\": \"no content\"\x7d"
    jsonBody := some (.obj [("message", .str "no content")]) }

/-- C3 witness: all three failure modes at concrete inputs — unconfigured,
transport failure, and a simulated 404 on the version fetch; in each case
exactly zero or one request (never the PUT) is issued. -/
theorem claim_C3_witness :
    ((confluence_update_page "123" "T" "B" none none confStateUnset).1 =
      .ok (errD confluenceNotConfiguredMsg) ∧
     (confluence_update_page "123" "T" "B" none none
       confStateUnset).2.trace = []) ∧
    ((confluence_update_page "123" "T" "B" none none
        (confStateReady failTransport)).1 =
      .ok (errD "Confluence request error: connection refused") ∧
     (confluence_update_page "123" "T" "B" none none
        (confStateReady failTransport)).2.trace.length = 1) ∧
    ((confluence_update_page "123" "T" "B" none none
        (confStateReady (constTransport notFoundResp))).1 =
      .ok (resp_err "Failed to get page version" notFoundResp) ∧
     (confluence_update_page "123" "T" "B" none none
        (confStateReady (constTransport notFoundResp))).2.trace.length =
       1) := by
  refine ⟨?_, ⟨?_, ?_⟩, ⟨?_, ?_⟩⟩
  · exact (claim_C3_update_page_aborts confStateUnset "123" "T" "B" none
      none).1 rfl
  · exact ((claim_C3_update_page_aborts (confStateReady failTransport)
      "123" "T" "B" none none).2.1 "connection refused" rfl rfl).1
  · have h := ((claim_C3_update_page_aborts (confStateReady failTransport)
      "123" "T" "B" none none).2.1 "connection refused" rfl rfl).2
    rw [h]
    rfl
  · exact ((claim_C3_update_page_aborts
      (confStateReady (constTransport notFoundResp)) "123" "T" "B" none
      none).2.2 notFoundResp rfl rfl (by decide)).1
  · have h := ((claim_C3_update_page_aborts
      (confStateReady (constTransport notFoundResp)) "123" "T" "B" none
      none).2.2 notFoundResp rfl rfl (by decide)).2
    rw [h]
    rfl

/-! ## Claim C1: operations while unconfigured -/

/-- C1 counterexample: unconfigured `confluence_get_page` with no arguments
returns the argument-validation error, not the fixed NotConfigured
message. -/
theorem claim_C1_counterexample :
    (confluence_get_page none none none none confStateUnset).1 =
      .ok (errD "Provide either page_id or both title and space_key.") ∧
    (confluence_get_page none none none none confStateUnset).1 ≠
      .ok (errD confluenceNotConfiguredMsg) := by
  constructor
  · rfl
  · intro h
    rw [show (confluence_get_page none none none none confStateUnset).1 =
      .ok (errD "Provide either page_id or both title and space_key.")
      from rfl] at h
    exact absurd (errD_inj (Except.ok.inj h)) (by decide)

/-- C1 (amended: caller-side validation takes precedence — `get_page` with
neither `page_id` nor `title`+`space_key` and `update_issue` with no fields
return their validation errors instead — and in every case no HTTP request
is issued): every tool operation of either service called while the
service is unconfigured returns the fixed NotConfigured envelope without
touching the transport. -/
theorem claim_C1_unconfigured_ops (stc : ConfState) (stj : JiraState)
    (hc : stc.config.is_configured = false)
    (hj : stj.config.is_configured = false) :
    (∀ (q : String) (mr : Int) (sk : Option String) (v : Option Bool),
      (confluence_search q mr sk v stc).1 =
        .ok (errD confluenceNotConfiguredMsg) ∧
      (confluence_search q mr sk v stc).2.trace = stc.trace) ∧
    (∀ (pid t sk2 : Option String) (v : Option Bool),
      (confluence_get_page pid t sk2 v stc).1 =
        .ok (errD (if optTruthy pid || (optTruthy t && optTruthy sk2) then
          confluenceNotConfiguredMsg
        else "Provide either page_id or both title and space_key.")) ∧
      (confluence_get_page pid t sk2 v stc).2.trace = stc.trace) ∧
    (∀ (sk t b : String) (par : Option String) (v : Option Bool),
      (confluence_create_page sk t b par v stc).1 =
        .ok (errD confluenceNotConfiguredMsg) ∧
      (confluence_create_page sk t b par v stc).2.trace = stc.trace) ∧
    (∀ (pid t b : String) (vc : Option String) (v : Option Bool),
      (confluence_update_page pid t b vc v stc).1 =
        .ok (errD confluenceNotConfiguredMsg) ∧
      (confluence_update_page pid t b vc v stc).2.trace = stc.trace) ∧
    (∀ (jql : String) (mr : Int) (flds : Option (List String))
        (v : Option Bool),
      (jira_search jql mr flds v stj).1 = .ok (errD jiraNotConfiguredMsg) ∧
      (jira_search jql mr flds v stj).2.trace = stj.trace) ∧
    (∀ (key : String) (e : Option String) (v : Option Bool),
      (jira_get_issue key e v stj).1 = .ok (errD jiraNotConfiguredMsg) ∧
      (jira_get_issue key e v stj).2.trace = stj.trace) ∧
    (∀ (pk sm it : String) (d pr a : Option String)
        (ls : Option (List String))
        (cf : Option (List (String × Json))) (v : Option Bool),
      (jira_create_issue pk sm it d pr a ls cf v stj).1 =
        .ok (errD jiraNotConfiguredMsg) ∧
      (jira_create_issue pk sm it d pr a ls cf v stj).2.trace =
        stj.trace) ∧
    (∀ (key : String) (sm d a : Option String) (ls : Option (List String))
        (pr : Option String) (cf : Option (List (String × Json)))
        (v : Option Bool),
      (jira_update_issue key sm d a ls pr cf v stj).1 =
        .ok (errD (if (jiraUpdateFields sm d a ls pr cf).isEmpty then
          "No fields to update." else jiraNotConfiguredMsg)) ∧
      (jira_update_issue key sm d a ls pr cf v stj).2.trace = stj.trace) ∧
    (∀ (key b : String) (v : Option Bool),
      (jira_add_comment key b v stj).1 = .ok (errD jiraNotConfiguredMsg) ∧
      (jira_add_comment key b v stj).2.trace = stj.trace) ∧
    (∀ (key tn : String) (v : Option Bool),
      (jira_transition_issue key tn v stj).1 =
        .ok (errD jiraNotConfiguredMsg) ∧
      (jira_transition_issue key tn v stj).2.trace = stj.trace) := by
  refine ⟨?_, ?_, ?_, ?_, ?_, ?_, ?_, ?_, ?_, ?_⟩
  · intro q mr sk v
    unfold confluence_search confluence_request
    simp [hc, PyM.catchTool, PyM.bind_def, PyM.pure_def]
  · intro pid t sk2 v
    unfold confluence_get_page confluence_request
    by_cases h1 : optTruthy pid = true
    · simp [hc, h1, PyM.catchTool, PyM.bind_def, PyM.pure_def]
    · by_cases h2 : (optTruthy t && optTruthy sk2) = true
      · simp [hc, h1, h2, PyM.catchTool, PyM.bind_def, PyM.pure_def]
      · simp [hc, h1, h2, PyM.catchTool, PyM.bind_def, PyM.pure_def]
  · intro sk t b par v
    unfold confluence_create_page confluence_request
    simp [hc, PyM.catchTool, PyM.bind_def, PyM.pure_def]
  · intro pid t b vc v
    unfold confluence_update_page PyM.catchStep confluenceUpdateStep1
      confluence_request
    simp [hc, PyM.catchTool, PyM.bind_def, PyM.pure_def]
  · intro jql mr flds v
    unfold jira_search detect_api_version jira_request
    cases hA : stj.apiVersion <;>
      simp [hA, hj, PyM.catchTool, PyM.bind_def, PyM.pure_def]
  · intro key e v
    unfold jira_get_issue detect_api_version jira_request
    cases hA : stj.apiVersion <;>
      simp [hA, hj, PyM.catchTool, PyM.bind_def, PyM.pure_def]
  · intro pk sm it d pr a ls cf v
    unfold jira_create_issue detect_api_version jira_request
    cases hA : stj.apiVersion <;>
      simp [hA, hj, PyM.catchTool, PyM.bind_def, PyM.pure_def]
  · intro key sm d a ls pr cf v
    unfold jira_update_issue detect_api_version jira_request
    by_cases hF : (jiraUpdateFields sm d a ls pr cf).isEmpty = true
    · cases hA : stj.apiVersion <;>
        simp [hA, hj, hF, PyM.catchTool, PyM.bind_def, PyM.pure_def]
    · cases hA : stj.apiVersion <;>
        simp [hA, hj, hF, PyM.catchTool, PyM.bind_def, PyM.pure_def]
  · intro key b v
    unfold jira_add_comment detect_api_version jira_request
    cases hA : stj.apiVersion <;>
      simp [hA, hj, PyM.catchTool, PyM.bind_def, PyM.pure_def]
  · intro key tn v
    unfold jira_transition_issue detect_api_version jira_request
    cases hA : stj.apiVersion <;>
      simp [hA, hj, PyM.catchTool, PyM.bind_def, PyM.pure_def]

/-- C1 witness: concrete unconfigured states; a search, a by-id page read,
an update with one field, and a transition all return the NotConfigured
envelope with an empty trace. -/
theorem claim_C1_witness :
    ((confluence_search "q" 10 none none confStateUnset).1 =
      .ok (errD confluenceNotConfiguredMsg) ∧
     (confluence_search "q" 10 none none confStateUnset).2.trace = []) ∧
    ((confluence_get_page (some "123") none none none confStateUnset).1 =
      .ok (errD confluenceNotConfiguredMsg)) ∧
    ((jira_update_issue "P-1" (some "s") none none none none none none
        jiraStateUnset).1 = .ok (errD jiraNotConfiguredMsg)) ∧
    ((jira_transition_issue "P-1" "Done" none jiraStateUnset).1 =
      .ok (errD jiraNotConfiguredMsg)) := by
  have h := claim_C1_unconfigured_ops confStateUnset jiraStateUnset rfl rfl
  refine ⟨⟨(h.1 "q" 10 none none).1, (h.1 "q" 10 none none).2⟩, ?_, ?_, ?_⟩
  · exact (h.2.1 (some "123") none none none).1
  · exact (h.2.2.2.2.2.2.2.1 "P-1" (some "s") none none none none none
      none).1
  · exact (h.2.2.2.2.2.2.2.2.2 "P-1" "Done" none).1

/-! ## Claim C8: configure-then-operate request construction -/

/-- The request that a post-`configure(url, u, p)` operation should send:
the stripped `url` concatenated with the API path, basic auth exactly
`u`/`p`, TLS flag resolved against the pre-existing service default. -/
def sentReq (url u p : String) (c : ServiceConfig) (method path : String)
    (params : List (String × String)) (jsonBody : Option Json)
    (v : Option Bool) : HttpRequest :=
  { method := method
    url := rstripSlash url ++ path
    authUser := u
    authPass := p
    verify := v.getD c.verifySsl
    params := params
    jsonBody := jsonBody }

/-- C8: after `configure(url, u, p)`, (a) the request builders of both
services send any request to exactly the stripped `url` plus the path with
basic auth `u`/`p` (whatever the transport outcome), and (b) each tool
operation, run against a stub transport, issues exactly its expected
requests — for JIRA the version probe followed by the operation's own
request — all built from exactly those credentials. -/
theorem claim_C8_configure_then_request (stc : ConfState) (stj : JiraState)
    (url u p : String) :
    (∀ (method path : String) (params : List (String × String))
        (jsonBody : Option Json) (v : Option Bool),
      (confluence_request method path params jsonBody v
          (confluence_configure url u p stc).2).2.trace =
        stc.trace ++ [sentReq url u p stc.config method path params
          jsonBody v]) ∧
    (∀ (method path : String) (params : List (String × String))
        (jsonBody : Option Json) (v : Option Bool),
      (jira_request method path params jsonBody v
          (jira_configure url u p stj).2).2.trace =
        stj.trace ++ [sentReq url u p stj.config method path params
          jsonBody v]) ∧
    (∀ (msg : String), (∀ i, stc.transport i = .failure msg) →
      (∀ (q : String) (mr : Int) (sk : Option String) (v : Option Bool),
        (confluence_search q mr sk v
            (confluence_configure url u p stc).2).2.trace =
          stc.trace ++ [sentReq url u p stc.config "GET"
            "/rest/api/content/search"
            [("cql", buildCql q sk), ("limit", intStr mr),
             ("expand", "metadata.labels")] none v]) ∧
      (∀ (pid : String) (v : Option Bool), pid ≠ "" →
        (confluence_get_page (some pid) none none v
            (confluence_configure url u p stc).2).2.trace =
          stc.trace ++ [sentReq url u p stc.config "GET"
            ("/rest/api/content/" ++ pid)
            [("expand", "body.storage,version,space")] none v]) ∧
      (∀ (sk t b : String) (v : Option Bool),
        (confluence_create_page sk t b none v
            (confluence_configure url u p stc).2).2.trace =
          stc.trace ++ [sentReq url u p stc.config "POST"
            "/rest/api/content" []
            (some (.obj [("type", .str "page"), ("title", .str t),
              ("space", .obj [("key", .str sk)]),
              ("body", .obj [("storage", .obj [("value", .str b),
                ("representation", .str "storage")])])])) v]) ∧
      (∀ (pid t b : String) (v : Option Bool),
        (confluence_update_page pid t b none v
            (confluence_configure url u p stc).2).2.trace =
          stc.trace ++ [sentReq url u p stc.config "GET"
            ("/rest/api/content/" ++ pid) [("expand", "version")]
            none v])) ∧
    (∀ (msg : String), (∀ i, stj.transport i = .failure msg) →
      (∀ (jql : String) (mr : Int) (flds : Option (List String))
          (v : Option Bool),
        (jira_search jql mr flds v (jira_configure url u p stj).2).2.trace =
          stj.trace ++
            [sentReq url u p stj.config "GET" "/rest/api/2/serverInfo" []
              none v,
             sentReq url u p stj.config "POST" "/rest/api/2/search" []
               (some (.obj [("jql", .str jql), ("maxResults", .num mr),
                 ("fields", .arr ((flds.getD jiraDefaultFields).map
                   Json.str))])) v]) ∧
      (∀ (key : String) (e : Option String) (v : Option Bool),
        (jira_get_issue key e v (jira_configure url u p stj).2).2.trace =
          stj.trace ++
            [sentReq url u p stj.config "GET" "/rest/api/2/serverInfo" []
              none v,
             sentReq url u p stj.config "GET"
               ("/rest/api/2/issue/" ++ key)
               (if optTruthy e then [("expand", pyFStr e)] else [])
               none v]) ∧
      (∀ (pk sm : String) (v : Option Bool),
        (jira_create_issue pk sm "Task" none none none none none v
            (jira_configure url u p stj).2).2.trace =
          stj.trace ++
            [sentReq url u p stj.config "GET" "/rest/api/2/serverInfo" []
              none v,
             sentReq url u p stj.config "POST" "/rest/api/2/issue" []
               (some (.obj [("fields", .obj
                 [("project", .obj [("key", .str pk)]),
                  ("summary", .str sm),
                  ("issuetype", .obj [("name", .str "Task")])])])) v]) ∧
      (∀ (key sm : String) (v : Option Bool),
        (jira_update_issue key (some sm) none none none none none v
            (jira_configure url u p stj).2).2.trace =
          stj.trace ++
            [sentReq url u p stj.config "GET" "/rest/api/2/serverInfo" []
              none v,
             sentReq url u p stj.config "PUT"
               ("/rest/api/2/issue/" ++ key) []
               (some (.obj [("fields", .obj
                 [("summary", .str sm)])])) v]) ∧
      (∀ (key b : String) (v : Option Bool),
        (jira_add_comment key b v (jira_configure url u p stj).2).2.trace =
          stj.trace ++
            [sentReq url u p stj.config "GET" "/rest/api/2/serverInfo" []
              none v,
             sentReq url u p stj.config "POST"
               ("/rest/api/2/issue/" ++ key ++ "/comment") []
               (some (.obj [("body", .str b)])) v]) ∧
      (∀ (key tn : String) (v : Option Bool),
        (jira_transition_issue key tn v
            (jira_configure url u p stj).2).2.trace =
          stj.trace ++
            [sentReq url u p stj.config "GET" "/rest/api/2/serverInfo" []
              none v,
             sentReq url u p stj.config "GET"
               ("/rest/api/2/issue/" ++ key ++ "/transitions") []
               none v])) := by
  refine ⟨?_, ?_, ?_, ?_⟩
  · intro method path params jsonBody v
    unfold confluence_configure confluence_request
    simp [ServiceConfig.is_configured, sentReq, rstripSlash_idem]
    cases hT : stc.transport stc.trace.length <;> simp [hT]
  · intro method path params jsonBody v
    unfold jira_configure jira_request
    simp [ServiceConfig.is_configured, sentReq, rstripSlash_idem]
    cases hT : stj.transport stj.trace.length <;> simp [hT]
  · intro msg hT
    refine ⟨?_, ?_, ?_, ?_⟩
    · intro q mr sk v
      unfold confluence_search confluence_configure confluence_request
      simp [ServiceConfig.is_configured, sentReq, rstripSlash_idem, hT,
        PyM.catchTool, PyM.bind_def, PyM.pure_def]
    · intro pid v hpid
      unfold confluence_get_page confluence_configure confluence_request
      simp [ServiceConfig.is_configured, sentReq, rstripSlash_idem, hT,
        optTruthy, bne_iff_ne, hpid, pyFStr,
        PyM.catchTool, PyM.bind_def, PyM.pure_def]
    · intro sk t b v
      unfold confluence_create_page confluence_configure
        confluence_request
      simp [ServiceConfig.is_configured, sentReq, rstripSlash_idem, hT,
        optTruthy, assocSet, PyM.catchTool, PyM.bind_def, PyM.pure_def]
    · intro pid t b v
      unfold confluence_update_page PyM.catchStep confluenceUpdateStep1
        confluence_configure confluence_request
      simp [ServiceConfig.is_configured, sentReq, rstripSlash_idem, hT,
        PyM.catchTool, PyM.bind_def, PyM.pure_def]
  · intro msg hT
    refine ⟨?_, ?_, ?_, ?_, ?_, ?_⟩
    · intro jql mr flds v
      unfold jira_search jira_configure detect_api_version jira_request
      simp [ServiceConfig.is_configured, sentReq, rstripSlash_idem, hT,
        PyM.catchTool, PyM.bind_def, PyM.pure_def]
    · intro key e v
      unfold jira_get_issue jira_configure detect_api_version jira_request
      simp [ServiceConfig.is_configured, sentReq, rstripSlash_idem, hT,
        PyM.catchTool, PyM.bind_def, PyM.pure_def]
    · intro pk sm v
      unfold jira_create_issue jira_configure detect_api_version
        jira_request
      simp [ServiceConfig.is_configured, sentReq, rstripSlash_idem, hT,
        PyM.catchTool, PyM.bind_def, PyM.pure_def]
    · intro key sm v
      unfold jira_update_issue jiraUpdateFields jira_configure
        detect_api_version jira_request
      simp [ServiceConfig.is_configured, sentReq, rstripSlash_idem, hT,
        assocSet, PyM.catchTool, PyM.bind_def, PyM.pure_def]
    · intro key b v
      unfold jira_add_comment jira_configure detect_api_version
        jira_request
      simp [ServiceConfig.is_configured, sentReq, rstripSlash_idem, hT,
        PyM.catchTool, PyM.bind_def, PyM.pure_def]
    · intro key tn v
      unfold jira_transition_issue jira_configure detect_api_version
        jira_request
      simp [ServiceConfig.is_configured, sentReq, rstripSlash_idem, hT,
        PyM.catchTool, PyM.bind_def, PyM.pure_def]

/-- C8 witness: concrete configure-then-operate runs; the trailing slash of
the configured URL is stripped and the credentials appear verbatim in the
issued requests. -/
theorem claim_C8_witness :
    (confluence_search "deployment issues" 10 none none
        (confluence_configure "https://confluence:8443/" "bob" "pw"
          confStateUnset).2).2.trace =
      [{ method := "GET"
         url := "https://confluence:8443/rest/api/content/search"
         authUser := "bob", authPass := "pw", verify := true
         params := [("cql", "type = page AND text ~ \"deployment issues\""),
           ("limit", "10"), ("expand", "metadata.labels")]
         jsonBody := none }] ∧
    (jira_get_issue "P-1" none none
        (jira_configure "https://jira.example.com/" "bob" "pw"
          jiraStateUnset).2).2.trace =
      [{ method := "GET"
         url := "https://jira.example.com/rest/api/2/serverInfo"
         authUser := "bob", authPass := "pw", verify := true
         params := [], jsonBody := none },
       { method := "GET"
         url := "https://jira.example.com/rest/api/2/issue/P-1"
         authUser := "bob", authPass := "pw", verify := true
         params := [], jsonBody := none }] := by
  constructor
  · have h := ((claim_C8_configure_then_request confStateUnset
      jiraStateUnset "https://confluence:8443/" "bob" "pw").2.2.1
      "connection refused" (fun i => rfl)).1 "deployment issues" 10 none
      none
    rw [h]
    rfl
  · have h := ((claim_C8_configure_then_request confStateUnset
      jiraStateUnset "https://jira.example.com/" "bob" "pw").2.2.2
      "connection refused" (fun i => rfl)).2.1 "P-1" none none
    rw [h]
    rfl

/-! ## Claim C5: `jira_transition_issue` matching and sequencing -/

/-- `bind` on an `Except.ok`. -/
theorem exceptOkBind {e a b : Type} (x : a) (f : a → Except e b) :
    ((Except.ok x : Except e a) >>= f) = f x := rfl

/-- `bind` on an `Except.error`. -/
theorem exceptErrorBind {e a b : Type} (err : e) (f : a → Except e b) :
    ((Except.error err : Except e a) >>= f) =
      (Except.error err : Except e b) := rfl

/-- C5: (1) a transition found by the matching loop comes from the fetched
list and its `name` lowercases to the lowercased requested name (the match
is case-insensitive); (2) with no case-insensitive match, the result is the
error enumerating the listed names exactly as Python prints them, and only
the listing GET (plus, at most, the version probe) is issued — no second
request; (3) on a match, the POST executes exactly the matched transition's
id; (4) when the transitions GET fails at the transport level or (5) with a
non-success status, that failure is returned and the POST is never
attempted. -/
theorem claim_C5_transition_issue :
    (∀ (target : String) (l : List Json) (t : Json),
      findTransition target l = .ok (some t) →
      t ∈ l ∧ ∃ s, pyGetDE t "name" (.str "") = .ok (.str s) ∧
        pyLowerStr s = target) ∧
    (∀ (st : JiraState) (key tn : String) (v : Option Bool)
        (r : HttpResponse) (data : Json) (ts names : List Json),
      st.config.is_configured = true →
      (∀ i, st.transport i = .success r) →
      r.isOk = true → r.jsonBody = some data →
      data.getD "transitions" (.arr []) = .arr ts →
      findTransition (pyLowerStr tn) ts = .ok none →
      getTransitionNames ts = .ok names →
      (jira_transition_issue key tn v st).1 =
        .ok (errD ("Transition '" ++ tn ++ "' not found. Available: " ++
          pyRepr (.arr names))) ∧
      (jira_transition_issue key tn v st).2.trace =
        st.trace ++ (match st.apiVersion with
          | none => [probeReq st.config v] | some _ => []) ++
          [builtReq st.config "GET"
            ("/rest/api/2/issue/" ++ key ++ "/transitions") [] none v]) ∧
    (∀ (st : JiraState) (key tn : String) (v : Option Bool)
        (r : HttpResponse) (data : Json) (ts : List Json) (t tid : Json),
      st.config.is_configured = true →
      (∀ i, st.transport i = .success r) →
      r.isOk = true → r.jsonBody = some data →
      data.getD "transitions" (.arr []) = .arr ts →
      findTransition (pyLowerStr tn) ts = .ok (some t) →
      t.truthy = true → t.get "id" = some tid →
      (jira_transition_issue key tn v st).2.trace =
        st.trace ++ (match st.apiVersion with
          | none => [probeReq st.config v] | some _ => []) ++
          [builtReq st.config "GET"
            ("/rest/api/2/issue/" ++ key ++ "/transitions") [] none v,
           builtReq st.config "POST"
            ("/rest/api/2/issue/" ++ key ++ "/transitions") []
            (some (.obj [("transition", .obj [("id", tid)])])) v]) ∧
    (∀ (st : JiraState) (key tn : String) (v : Option Bool) (m : String),
      st.config.is_configured = true →
      (∀ i, st.transport i = .failure m) →
      (jira_transition_issue key tn v st).1 =
        .ok (errD ("JIRA request error: " ++ m)) ∧
      (jira_transition_issue key tn v st).2.trace =
        st.trace ++ (match st.apiVersion with
          | none => [probeReq st.config v] | some _ => []) ++
          [builtReq st.config "GET"
            ("/rest/api/2/issue/" ++ key ++ "/transitions") [] none v]) ∧
    (∀ (st : JiraState) (key tn : String) (v : Option Bool)
        (r : HttpResponse),
      st.config.is_configured = true →
      (∀ i, st.transport i = .success r) →
      r.isOk = false →
      (jira_transition_issue key tn v st).1 =
        .ok (resp_err "Failed to get transitions" r) ∧
      (jira_transition_issue key tn v st).2.trace =
        st.trace ++ (match st.apiVersion with
          | none => [probeReq st.config v] | some _ => []) ++
          [builtReq st.config "GET"
            ("/rest/api/2/issue/" ++ key ++ "/transitions") [] none v]) := by
  refine ⟨?_, ?_, ?_, ?_, ?_⟩
  · intro target l t h
    induction l with
    | nil => simp [findTransition] at h
    | cons t2 rest ih =>
      unfold findTransition at h
      cases h2 : pyGetDE t2 "name" (.str "") with
      | error e2 => rw [h2, exceptErrorBind] at h; exact absurd h (by simp)
      | ok nm =>
        rw [h2] at h
        simp only [exceptOkBind] at h
        cases h3 : pyLowerE nm with
        | error e2 =>
          rw [h3, exceptErrorBind] at h
          exact absurd h (by simp)
        | ok s2 =>
          rw [h3] at h
          simp only [exceptOkBind] at h
          have hnm : ∃ s0, nm = Json.str s0 ∧ s2 = pyLowerStr s0 := by
            cases nm <;> simp_all [pyLowerE]
          obtain ⟨s0, rfl, rfl⟩ := hnm
          by_cases hs : pyLowerStr s0 = target
          · rw [if_pos hs] at h
            have ht : t2 = t := by simpa [pure, Except.pure] using h
            subst ht
            exact ⟨List.mem_cons_self t2 rest, s0, h2, hs⟩
          · rw [if_neg hs] at h
            obtain ⟨hmem, s3, h3b, h4⟩ := ih h
            exact ⟨List.mem_cons_of_mem t2 hmem, s3, h3b, h4⟩
  · intro st key tn v r data ts names hC hT hok hjson hts hM hN
    unfold jira_transition_issue detect_api_version jira_request
    cases hA : st.apiVersion <;>
      simp [hA, hC, hT, hok, hjson, hts, hM, hN, PyM.catchTool,
        PyM.bind_def, PyM.pure_def, PyM.ofExcept, HttpResponse.jsonM,
        Json.asPyList, probeReq, builtReq]
  · intro st key tn v r data ts t tid hC hT hok hjson hts hM htr htid
    unfold jira_transition_issue detect_api_version jira_request
    cases hA : st.apiVersion <;>
      simp [hA, hC, hT, hok, hjson, hts, hM, htr, htid, PyM.catchTool,
        PyM.bind_def, PyM.pure_def, PyM.ofExcept, HttpResponse.jsonM,
        Json.asPyList, Json.pyIndex, probeReq, builtReq]
  · intro st key tn v m hC hT
    unfold jira_transition_issue detect_api_version jira_request
    cases hA : st.apiVersion <;>
      simp [hA, hC, hT, PyM.catchTool, PyM.bind_def, PyM.pure_def,
        probeReq, builtReq]
  · intro st key tn v r hC hT hok
    unfold jira_transition_issue detect_api_version jira_request
    cases hA : st.apiVersion <;>
      simp [hA, hC, hT, hok, PyM.catchTool, PyM.bind_def, PyM.pure_def,
        probeReq, builtReq]

/-- A 200 transitions listing naming "To Do" and "In Progress". -/
def transListResp : HttpResponse :=
  { status := 200
    text := "\x7b\"transitions\": [...]\x7d"
    jsonBody := some (.obj [("transitions", .arr
      [.obj [("id", .str "11"), ("name", .str "To Do")],
       .obj [("id", .str "21"), ("name", .str "In Progress")]])]) }

/-- A 200 transitions listing that includes "Done" with id "31". -/
def doneTransResp : HttpResponse :=
  { status := 200
    text := "\x7b\"transitions\": [...]\x7d"
    jsonBody := some (.obj [("transitions", .arr
      [.obj [("id", .str "11"), ("name", .str "To Do")],
       .obj [("id", .str "31"), ("name", .str "Done")]])]) }

/-- C5 witness: requesting "Done" against a listing without it enumerates
`['To Do', 'In Progress']` and issues exactly one request; requesting
"done" against a listing with "Done" (id "31") issues the GET and then a
POST carrying exactly that id. -/
theorem claim_C5_witness :
    ((jira_transition_issue "P-1" "Done" none
        (jiraStateReady (some "2") (constTransport transListResp))).1 =
      .ok (errD
        "Transition 'Done' not found. Available: ['To Do', 'In Progress']") ∧
     (jira_transition_issue "P-1" "Done" none
        (jiraStateReady (some "2")
          (constTransport transListResp))).2.trace.length = 1) ∧
    (jira_transition_issue "P-1" "done" none
        (jiraStateReady (some "2")
          (constTransport doneTransResp))).2.trace.map
        (fun q => (q.method, q.jsonBody)) =
      [("GET", none),
       ("POST", some (.obj [("transition", .obj [("id", .str "31")])]))] := by
  refine ⟨⟨?_, ?_⟩, ?_⟩
  · have h := (claim_C5_transition_issue.2.1
      (jiraStateReady (some "2") (constTransport transListResp)) "P-1"
      "Done" none transListResp
      (.obj [("transitions", .arr
        [.obj [("id", .str "11"), ("name", .str "To Do")],
         .obj [("id", .str "21"), ("name", .str "In Progress")]])])
      [.obj [("id", .str "11"), ("name", .str "To Do")],
       .obj [("id", .str "21"), ("name", .str "In Progress")]]
      [.str "To Do", .str "In Progress"]
      rfl (fun i => rfl) (by decide) rfl rfl rfl rfl).1
    rw [h]
    rfl
  · have h := (claim_C5_transition_issue.2.1
      (jiraStateReady (some "2") (constTransport transListResp)) "P-1"
      "Done" none transListResp
      (.obj [("transitions", .arr
        [.obj [("id", .str "11"), ("name", .str "To Do")],
         .obj [("id", .str "21"), ("name", .str "In Progress")]])])
      [.obj [("id", .str "11"), ("name", .str "To Do")],
       .obj [("id", .str "21"), ("name", .str "In Progress")]]
      [.str "To Do", .str "In Progress"]
      rfl (fun i => rfl) (by decide) rfl rfl rfl rfl).2
    rw [h]
    rfl
  · have h := claim_C5_transition_issue.2.2.1
      (jiraStateReady (some "2") (constTransport doneTransResp)) "P-1"
      "done" none doneTransResp
      (.obj [("transitions", .arr
        [.obj [("id", .str "11"), ("name", .str "To Do")],
         .obj [("id", .str "31"), ("name", .str "Done")]])])
      [.obj [("id", .str "11"), ("name", .str "To Do")],
       .obj [("id", .str "31"), ("name", .str "Done")]]
      (.obj [("id", .str "31"), ("name", .str "Done")]) (.str "31")
      rfl (fun i => rfl) (by decide) rfl rfl rfl rfl rfl
    rw [h]
    rfl

/-! ## Claim C9: the HTML normalizer

The idempotence proof rests on two invariants of the pipeline's output:
`tagInert` (every `<` is either immediately followed by `>` or has no `>`
after it, so none of the tag patterns can match again) and `noTriple` (no
run of three newlines, so the collapse pass is done).  The final strip is
idempotent on its own. -/

/-- Does the list contain a `>`? -/
def hasGt : List Char → Bool
  | [] => false
  | c :: cs => c = '>' || hasGt cs

/-- The condition making a `<` inert given the characters after it: the
next character is `>` (so `[^>]+`/`[^>]*` cannot span), or no `>` follows
at all. -/
def ltOk : List Char → Bool
  | [] => true
  | c :: cs => c = '>' || !hasGt (c :: cs)

/-- Every `<` in the list is inert: no tag pattern can match at it. -/
def tagInert : List Char → Bool
  | [] => true
  | c :: cs => (if c = '<' then ltOk cs else true) && tagInert cs

/-- No three consecutive newlines. -/
def noTriple : List Char → Bool
  | c1 :: c2 :: c3 :: tl =>
    !(c1 = '\n' && c2 = '\n' && c3 = '\n') && noTriple (c2 :: c3 :: tl)
  | _ => true

/-- `hasGt` over an append. -/
theorem hasGt_append (a b : List Char) :
    hasGt (a ++ b) = (hasGt a || hasGt b) := by
  induction a with
  | nil => simp [hasGt]
  | cons c cs ih => simp [hasGt, ih, Bool.or_assoc]

/-- `hasGt` is monotone under `drop`. -/
theorem hasGt_drop_false {l : List Char} (h : hasGt l = false) (n : Nat) :
    hasGt (l.drop n) = false := by
  induction l generalizing n with
  | nil => simp [hasGt]
  | cons c cs ih =>
    cases n with
    | zero => exact h
    | succ m =>
      simp only [hasGt, Bool.or_eq_false_iff] at h
      exact ih h.2 m

/-- A found `>` index means the list has a `>`. -/
theorem findGtIdx_hasGt {l : List Char} {m : Nat}
    (h : findGtIdx l = some m) : hasGt l = true := by
  induction l generalizing m with
  | nil => simp [findGtIdx] at h
  | cons c cs ih =>
    unfold findGtIdx at h
    by_cases hc : c = '>'
    · simp [hasGt, hc]
    · rw [if_neg hc] at h
      cases h2 : findGtIdx cs with
      | none => rw [h2] at h; simp at h
      | some m2 => simp [hasGt, hc, ih h2]

/-- No found `>` index means the list has no `>`. -/
theorem findGtIdx_none_hasGt {l : List Char} (h : findGtIdx l = none) :
    hasGt l = false := by
  induction l with
  | nil => simp [hasGt]
  | cons c cs ih =>
    unfold findGtIdx at h
    by_cases hc : c = '>'
    · rw [if_pos hc] at h; simp at h
    · rw [if_neg hc] at h
      cases h2 : findGtIdx cs with
      | none => simp [hasGt, hc, ih h2]
      | some m2 => rw [h2] at h; simp at h

/-- A zero `>` index means the list starts with `>`. -/
theorem findGtIdx_zero {l : List Char} (h : findGtIdx l = some 0) :
    ∃ tl, l = '>' :: tl := by
  cases l with
  | nil => simp [findGtIdx] at h
  | cons c cs =>
    unfold findGtIdx at h
    by_cases hc : c = '>'
    · exact ⟨cs, by rw [hc]⟩
    · rw [if_neg hc] at h
      cases h2 : findGtIdx cs with
      | none => rw [h2] at h; simp at h
      | some m2 => rw [h2] at h; simp at h

/-- `hasGt` of a list with a `>`-containing drop. -/
theorem hasGt_of_drop {l : List Char} {n : Nat}
    (h : hasGt (l.drop n) = true) : hasGt l = true := by
  cases hfull : hasGt l with
  | true => rfl
  | false => rw [hasGt_drop_false hfull n] at h; exact h.symm ▸ rfl

/-- A `<br...>` match needs a `>` in the tail. -/
theorem matchBrTail_hasGt {cs : List Char} {n : Nat}
    (h : matchBrTail cs = some n) : hasGt cs = true := by
  unfold matchBrTail at h
  split at h
  · rename_i b r rest
    split at h
    · dsimp only at h
      split at h
      · rename_i hd
        have hg : hasGt (rest.drop (countLeadingWs rest)) = true := by
          rw [hd]; simp [hasGt]
        simp [hasGt, hasGt_of_drop hg]
      · rename_i hd
        have hg : hasGt (rest.drop (countLeadingWs rest)) = true := by
          rw [hd]; simp [hasGt]
        simp [hasGt, hasGt_of_drop hg]
      · simp at h
    · simp at h
  · simp at h

/-- A closing-tag match needs a `>` in the tail. -/
theorem matchCloseTail_hasGt {cs : List Char} {n : Nat}
    (h : matchCloseTail cs = some n) : hasGt cs = true := by
  unfold matchCloseTail at h
  split at h
  · rename_i rest
    split at h
    · rename_i k hk
      split at h
      · rename_i hd
        have hg : hasGt (rest.drop k) = true := by rw [hd]; simp [hasGt]
        simp [hasGt, hasGt_of_drop hg]
      · simp at h
    · simp at h
  · simp at h

/-- An opening-tag match needs a `>` in the tail. -/
theorem matchOpenTail_hasGt {cs : List Char} {n : Nat}
    (h : matchOpenTail cs = some n) : hasGt cs = true := by
  unfold matchOpenTail at h
  split at h
  · rename_i k hk
    split at h
    · rename_i m hm
      exact hasGt_of_drop (findGtIdx_hasGt hm)
    · simp at h
  · simp at h

/-- An any-tag match needs a `>` in the tail. -/
theorem matchAnyTagTail_hasGt {cs : List Char} {n : Nat}
    (h : matchAnyTagTail cs = some n) : hasGt cs = true := by
  unfold matchAnyTagTail at h
  split at h
  · simp at h
  · rename_i m hne heq
    exact findGtIdx_hasGt heq
  · simp at h

/-- No matcher fires right after a `<` when the next character is `>`. -/
theorem matchBrTail_gt (tl : List Char) : matchBrTail ('>' :: tl) = none := by
  cases tl with
  | nil => rfl
  | cons r rest => simp [matchBrTail]

/-- Closing-tag matcher fails on a `>` head. -/
theorem matchCloseTail_gt (tl : List Char) :
    matchCloseTail ('>' :: tl) = none := rfl

/-- The tag-name alternation fails on a `>` head. -/
theorem matchAlt_gt (tl : List Char) : matchAlt ('>' :: tl) = none := by
  simp [matchAlt]

/-- Opening-tag matcher fails on a `>` head. -/
theorem matchOpenTail_gt (tl : List Char) :
    matchOpenTail ('>' :: tl) = none := by
  simp [matchOpenTail, matchAlt_gt]

/-- Any-tag matcher fails on a `>` head (`[^>]+` needs one character). -/
theorem matchAnyTagTail_gt (tl : List Char) :
    matchAnyTagTail ('>' :: tl) = none := rfl

/-- Matchers fail on `>`-free tails. -/
theorem matchBrTail_noGt {cs : List Char} (h : hasGt cs = false) :
    matchBrTail cs = none := by
  cases hm : matchBrTail cs with
  | none => rfl
  | some n => rw [matchBrTail_hasGt hm] at h; simp at h

/-- Closing-tag matcher fails on `>`-free tails. -/
theorem matchCloseTail_noGt {cs : List Char} (h : hasGt cs = false) :
    matchCloseTail cs = none := by
  cases hm : matchCloseTail cs with
  | none => rfl
  | some n => rw [matchCloseTail_hasGt hm] at h; simp at h

/-- Opening-tag matcher fails on `>`-free tails. -/
theorem matchOpenTail_noGt {cs : List Char} (h : hasGt cs = false) :
    matchOpenTail cs = none := by
  cases hm : matchOpenTail cs with
  | none => rfl
  | some n => rw [matchOpenTail_hasGt hm] at h; simp at h

/-- Any-tag matcher fails on `>`-free tails. -/
theorem matchAnyTagTail_noGt {cs : List Char} (h : hasGt cs = false) :
    matchAnyTagTail cs = none := by
  cases hm : matchAnyTagTail cs with
  | none => rfl
  | some n => rw [matchAnyTagTail_hasGt hm] at h; simp at h

theorem subTagAux_nil (mt : List Char → Option Nat) (repl : List Char)
    (fuel : Nat) : subTagAux mt repl fuel [] = [] := by
  cases fuel <;> rfl

theorem ltOk_of_not_hasGt {X : List Char} (h : hasGt X = false) :
    ltOk X = true := by
  cases X with
  | nil => rfl
  | cons c cs => simp [ltOk, h]

theorem tagInert_cons_lt (X : List Char) :
    tagInert ('<' :: X) = (ltOk X && tagInert X) := by
  simp [tagInert]

theorem tagInert_cons_ne {c : Char} (h : ¬c = '<') (X : List Char) :
    tagInert (c :: X) = tagInert X := by
  simp [tagInert, h]

theorem subTagAux_hasGt_false (mt : List Char → Option Nat)
    {repl : List Char} (hrepl : hasGt repl = false) :
    ∀ (fuel : Nat) (l : List Char), hasGt l = false →
      hasGt (subTagAux mt repl fuel l) = false := by
  intro fuel
  induction fuel with
  | zero => intro l h; exact h
  | succ f ih =>
    intro l h
    cases l with
    | nil => simpa [subTagAux_nil] using h
    | cons c cs =>
      simp only [hasGt, Bool.or_eq_false_iff] at h
      obtain ⟨hcgt, hcs⟩ := h
      by_cases hlt : c = '<'
      · subst hlt
        unfold subTagAux
        simp only [if_pos rfl]
        cases hm : mt cs with
        | some n =>
          show hasGt (repl ++ subTagAux mt repl f (cs.drop n)) = false
          rw [hasGt_append]
          simp [hrepl, ih _ (hasGt_drop_false hcs n)]
        | none =>
          show hasGt ('<' :: subTagAux mt repl f cs) = false
          simp [hasGt, ih _ hcs]
      · unfold subTagAux
        rw [if_neg hlt]
        simp [hasGt, hcgt, ih _ hcs]

theorem matchAnyTagTail_none_cases {cs : List Char}
    (h : matchAnyTagTail cs = none) :
    hasGt cs = false ∨ ∃ tl, cs = '>' :: tl := by
  cases hf : findGtIdx cs with
  | none => exact Or.inl (findGtIdx_none_hasGt hf)
  | some m =>
    cases m with
    | zero => exact Or.inr (findGtIdx_zero hf)
    | succ k =>
      unfold matchAnyTagTail at h
      rw [hf] at h
      simp at h

theorem subTagAux_any_inert :
    ∀ (fuel : Nat) (l : List Char), l.length ≤ fuel →
      tagInert (subTagAux matchAnyTagTail [] fuel l) = true := by
  intro fuel
  induction fuel with
  | zero =>
    intro l hl
    have h0 : l = [] := List.eq_nil_of_length_eq_zero (Nat.le_zero.mp hl)
    subst h0
    rfl
  | succ f ih =>
    intro l hl
    cases l with
    | nil => simp [subTagAux_nil, tagInert]
    | cons c cs =>
      have hcs : cs.length ≤ f := by
        simp only [List.length_cons] at hl
        omega
      by_cases hc : c = '<'
      · subst hc
        unfold subTagAux
        simp only [if_pos rfl]
        cases hm : matchAnyTagTail cs with
        | some n =>
          have hdl : (cs.drop n).length ≤ f := by
            rw [List.length_drop]
            omega
          simpa using ih (cs.drop n) hdl
        | none =>
          rcases matchAnyTagTail_none_cases hm with hng | ⟨tl, rfl⟩
          · have hrec := ih cs hcs
            have hg : hasGt (subTagAux matchAnyTagTail [] f cs) = false :=
              subTagAux_hasGt_false matchAnyTagTail
                (by rfl : hasGt ([] : List Char) = false) f cs hng
            show tagInert ('<' :: subTagAux matchAnyTagTail [] f cs) = true
            rw [tagInert_cons_lt]
            simp [ltOk_of_not_hasGt hg, hrec]
          · cases f with
            | zero => simp at hcs
            | succ f2 =>
              have hstep : subTagAux matchAnyTagTail [] (f2 + 1)
                  ('>' :: tl) = '>' :: subTagAux matchAnyTagTail [] f2 tl := by
                conv_lhs => unfold subTagAux
                rw [if_neg (by decide : ¬('>' = '<'))]
              have hrec := ih ('>' :: tl) hcs
              rw [hstep] at hrec
              show tagInert
                ('<' :: '>' :: subTagAux matchAnyTagTail [] f2 tl) = true
              rw [tagInert_cons_lt]
              simp [ltOk, hrec]
      · unfold subTagAux
        rw [if_neg hc, tagInert_cons_ne hc]
        exact ih cs hcs

theorem subTagAux_inert_id (mt : List Char → Option Nat) (repl : List Char)
    (hB : ∀ tl, mt ('>' :: tl) = none)
    (hC : ∀ cs, hasGt cs = false → mt cs = none) :
    ∀ (fuel : Nat) (l : List Char), tagInert l = true →
      subTagAux mt repl fuel l = l := by
  intro fuel
  induction fuel with
  | zero => intro l h; rfl
  | succ f ih =>
    intro l h
    cases l with
    | nil => rfl
    | cons c cs =>
      by_cases hc : c = '<'
      · subst hc
        rw [tagInert_cons_lt] at h
        simp only [Bool.and_eq_true] at h
        obtain ⟨hok, hin⟩ := h
        have hmt : mt cs = none := by
          cases cs with
          | nil => exact hC [] rfl
          | cons d tl =>
            simp only [ltOk, Bool.or_eq_true] at hok
            rcases hok with hd | hng
            · have hd2 : d = '>' := by simpa using hd
              subst hd2
              exact hB tl
            · exact hC _ (by simpa using hng)
        unfold subTagAux
        rw [if_pos rfl, hmt]
        show '<' :: subTagAux mt repl f cs = '<' :: cs
        rw [ih cs hin]
      · unfold subTagAux
        rw [if_neg hc]
        rw [tagInert_cons_ne hc] at h
        rw [ih cs h]

theorem collapseNlAux_nil (fuel : Nat) : collapseNlAux fuel [] = [] := by
  cases fuel <;> rfl

theorem countLeadingNl_drop_head (l : List Char) :
    (l.drop (countLeadingNl l)).head? = none ∨
    ∃ d tl, l.drop (countLeadingNl l) = d :: tl ∧ ¬d = '\n' := by
  induction l with
  | nil => left; rfl
  | cons c cs ih =>
    by_cases hc : c = '\n'
    · subst hc
      unfold countLeadingNl
      rw [if_pos rfl]
      simpa using ih
    · unfold countLeadingNl
      rw [if_neg hc]
      right
      exact ⟨c, cs, rfl, hc⟩

theorem collapseNlAux_head {fuel : Nat} {X : List Char}
    (h : X.head? = none ∨ ∃ d tl, X = d :: tl ∧ ¬d = '\n') :
    (collapseNlAux fuel X).head? = X.head? := by
  rcases h with h | ⟨d, tl, rfl, hd⟩
  · have hX : X = [] := by cases X <;> simp_all
    subst hX
    rw [collapseNlAux_nil]
  · cases fuel with
    | zero => rfl
    | succ f =>
      unfold collapseNlAux
      rw [if_neg hd]
      rfl

theorem noTriple_cons_safe {c : Char} {X : List Char}
    (hh : X.head? = none ∨ ∃ d tl, X = d :: tl ∧ ¬d = '\n')
    (hX : noTriple X = true) : noTriple (c :: X) = true := by
  rcases hh with h | ⟨d, tl, rfl, hd⟩
  · have hX0 : X = [] := by cases X <;> simp_all
    subst hX0
    rfl
  · cases tl with
    | nil => rfl
    | cons e es =>
      unfold noTriple
      simp [hd, hX]

theorem noTriple_cons_head_ne {c : Char} {X : List Char} (hc : ¬c = '\n')
    (hX : noTriple X = true) : noTriple (c :: X) = true := by
  cases X with
  | nil => rfl
  | cons x xs =>
    cases xs with
    | nil => rfl
    | cons y ys =>
      unfold noTriple
      simp [hc, hX]

theorem noTriple_nl_nl {X : List Char}
    (hh : X.head? = none ∨ ∃ d tl, X = d :: tl ∧ ¬d = '\n')
    (hX : noTriple X = true) : noTriple ('\n' :: '\n' :: X) = true := by
  rcases hh with h | ⟨d, tl, rfl, hd⟩
  · have hX0 : X = [] := by cases X <;> simp_all
    subst hX0
    rfl
  · unfold noTriple
    simp only [hd]
    have h2 : noTriple ('\n' :: d :: tl) = true :=
      noTriple_cons_safe (Or.inr ⟨d, tl, rfl, hd⟩) hX
    simp [h2, hd]

theorem collapseNlAux_noTriple :
    ∀ (fuel : Nat) (l : List Char), l.length ≤ fuel →
      noTriple (collapseNlAux fuel l) = true := by
  intro fuel
  induction fuel with
  | zero =>
    intro l hl
    have h0 : l = [] := List.eq_nil_of_length_eq_zero (Nat.le_zero.mp hl)
    subst h0
    rfl
  | succ f ih =>
    intro l hl
    cases l with
    | nil => rw [collapseNlAux_nil]; rfl
    | cons c cs =>
      have hlen : cs.length ≤ f := by
        simp only [List.length_cons] at hl
        omega
      by_cases hc : c = '\n'
      · subst hc
        unfold collapseNlAux
        rw [if_pos rfl]
        dsimp only
        have hdl : (cs.drop (countLeadingNl cs)).length ≤ f := by
          rw [List.length_drop]; omega
        have hrest := ih (cs.drop (countLeadingNl cs)) hdl
        have hhead0 := countLeadingNl_drop_head cs
        have hhead : (collapseNlAux f (cs.drop (countLeadingNl cs))).head? =
            (cs.drop (countLeadingNl cs)).head? := collapseNlAux_head hhead0
        have hsafe : (collapseNlAux f (cs.drop (countLeadingNl cs))).head? =
            none ∨ ∃ d tl, collapseNlAux f (cs.drop (countLeadingNl cs)) =
              d :: tl ∧ ¬d = '\n' := by
          rcases hhead0 with h | ⟨d, tl, hdt, hd⟩
          · left; rw [hhead, h]
          · cases hcol : collapseNlAux f (cs.drop (countLeadingNl cs)) with
            | nil => left; simp [hcol]
            | cons x xs =>
              right
              have hx : x = d := by
                have h2 := hhead
                rw [hcol, hdt] at h2
                simpa using h2
              exact ⟨d, xs, by rw [hx], hd⟩
        by_cases h3 : 3 ≤ countLeadingNl cs + 1
        · rw [if_pos h3]
          show noTriple ('\n' :: '\n' ::
            collapseNlAux f (cs.drop (countLeadingNl cs))) = true
          exact noTriple_nl_nl hsafe hrest
        · rw [if_neg h3]
          have hk : countLeadingNl cs = 0 ∨ countLeadingNl cs = 1 := by
            omega
          rcases hk with hk | hk
          · rw [hk] at hrest hsafe ⊢
            simpa using noTriple_cons_safe hsafe hrest
          · rw [hk] at hrest hsafe ⊢
            simpa using noTriple_nl_nl hsafe hrest
      · unfold collapseNlAux
        rw [if_neg hc]
        exact noTriple_cons_head_ne hc (ih cs hlen)

theorem countLeadingNl_decomp (l : List Char) :
    l = List.replicate (countLeadingNl l) '\n' ++
      l.drop (countLeadingNl l) := by
  induction l with
  | nil => rfl
  | cons c cs ih =>
    by_cases hc : c = '\n'
    · subst hc
      unfold countLeadingNl
      rw [if_pos rfl]
      rw [List.replicate_succ]
      simpa using ih
    · unfold countLeadingNl
      rw [if_neg hc]
      simp

theorem noTriple_tail {c : Char} {X : List Char}
    (h : noTriple (c :: X) = true) : noTriple X = true := by
  cases X with
  | nil => rfl
  | cons x xs =>
    cases xs with
    | nil => rfl
    | cons y ys =>
      unfold noTriple at h
      exact (Bool.and_eq_true_iff.mp h).2

theorem noTriple_drop {l : List Char} (h : noTriple l = true) (n : Nat) :
    noTriple (l.drop n) = true := by
  induction n generalizing l with
  | zero => exact h
  | succ m ih =>
    cases l with
    | nil => rfl
    | cons c cs => exact ih (noTriple_tail h)

theorem countLeadingNl_pos_head {l : List Char}
    (h : 1 ≤ countLeadingNl l) : ∃ tl, l = '\n' :: tl := by
  cases l with
  | nil => simp [countLeadingNl] at h
  | cons c cs =>
    by_cases hc : c = '\n'
    · exact ⟨cs, by rw [hc]⟩
    · unfold countLeadingNl at h
      rw [if_neg hc] at h
      omega

theorem noTriple_nl_run_bound {cs : List Char}
    (h : noTriple ('\n' :: cs) = true) : countLeadingNl cs ≤ 1 := by
  by_contra hk
  push_neg at hk
  obtain ⟨tl, rfl⟩ := countLeadingNl_pos_head (by omega : 1 ≤ countLeadingNl cs)
  have h2 : 1 ≤ countLeadingNl tl := by
    unfold countLeadingNl at hk
    rw [if_pos rfl] at hk
    omega
  obtain ⟨tl2, rfl⟩ := countLeadingNl_pos_head h2
  unfold noTriple at h
  simp at h

theorem collapseNlAux_id :
    ∀ (fuel : Nat) (l : List Char), noTriple l = true →
      collapseNlAux fuel l = l := by
  intro fuel
  induction fuel with
  | zero => intro l h; rfl
  | succ f ih =>
    intro l h
    cases l with
    | nil => rfl
    | cons c cs =>
      by_cases hc : c = '\n'
      · subst hc
        unfold collapseNlAux
        rw [if_pos rfl]
        dsimp only
        have hk : countLeadingNl cs ≤ 1 := noTriple_nl_run_bound h
        rw [if_neg (by omega : ¬3 ≤ countLeadingNl cs + 1)]
        rw [ih (cs.drop (countLeadingNl cs))
          (noTriple_drop (noTriple_tail h) _)]
        conv_rhs => rw [show cs = List.replicate (countLeadingNl cs) '\n' ++
          cs.drop (countLeadingNl cs) from countLeadingNl_decomp cs]
        rw [List.replicate_succ]
        simp
      · unfold collapseNlAux
        rw [if_neg hc]
        rw [ih cs (noTriple_tail h)]

theorem tagInert_tail {c : Char} {X : List Char}
    (h : tagInert (c :: X) = true) : tagInert X = true := by
  unfold tagInert at h
  exact (Bool.and_eq_true_iff.mp h).2

theorem tagInert_drop {l : List Char} (h : tagInert l = true) (n : Nat) :
    tagInert (l.drop n) = true := by
  induction n generalizing l with
  | zero => exact h
  | succ m ih =>
    cases l with
    | nil => rfl
    | cons c cs => exact ih (tagInert_tail h)

theorem hasGt_replicate_nl (n : Nat) :
    hasGt (List.replicate n '\n') = false := by
  induction n with
  | zero => rfl
  | succ m ih => simp [List.replicate_succ, hasGt, ih]

theorem collapseNlAux_hasGt_false {l : List Char} (h : hasGt l = false) :
    ∀ fuel, hasGt (collapseNlAux fuel l) = false := by
  intro fuel
  induction fuel generalizing l with
  | zero => exact h
  | succ f ih =>
    cases l with
    | nil => rw [collapseNlAux_nil]; rfl
    | cons c cs =>
      simp only [hasGt, Bool.or_eq_false_iff] at h
      obtain ⟨hcgt, hcs⟩ := h
      by_cases hc : c = '\n'
      · subst hc
        unfold collapseNlAux
        rw [if_pos rfl]
        dsimp only
        rw [hasGt_append]
        have hrest : hasGt (collapseNlAux f
            (cs.drop (countLeadingNl cs))) = false :=
          ih (hasGt_drop_false hcs _)
        by_cases h3 : 3 ≤ countLeadingNl cs + 1
        · rw [if_pos h3]
          simp [hasGt, hrest]
        · rw [if_neg h3]
          simp [hasGt_replicate_nl, hrest]
      · unfold collapseNlAux
        rw [if_neg hc]
        simp [hasGt, hcgt, ih hcs]

theorem tagInert_nl_nl (X : List Char) :
    tagInert ('\n' :: '\n' :: X) = tagInert X := by
  rw [tagInert_cons_ne (by decide), tagInert_cons_ne (by decide)]

theorem tagInert_replicate_nl (n : Nat) (X : List Char) :
    tagInert (List.replicate n '\n' ++ X) = tagInert X := by
  induction n with
  | zero => rfl
  | succ m ih =>
    rw [List.replicate_succ, List.cons_append,
      tagInert_cons_ne (by decide), ih]

theorem collapseNlAux_tagInert :
    ∀ (fuel : Nat) (l : List Char), l.length ≤ fuel →
      tagInert l = true → tagInert (collapseNlAux fuel l) = true := by
  intro fuel
  induction fuel with
  | zero => intro l hl h; exact h
  | succ f ih =>
    intro l hl h
    cases l with
    | nil => rw [collapseNlAux_nil]; rfl
    | cons c cs =>
      have hlen : cs.length ≤ f := by
        simp only [List.length_cons] at hl
        omega
      by_cases hlt : c = '<'
      · subst hlt
        unfold collapseNlAux
        rw [if_neg (by decide : ¬('<' = '\n'))]
        rw [tagInert_cons_lt] at h ⊢
        simp only [Bool.and_eq_true] at h
        obtain ⟨hok, hin⟩ := h
        have hrec := ih cs hlen hin
        have hltOk : ltOk (collapseNlAux f cs) = true := by
          cases cs with
          | nil => rw [collapseNlAux_nil]; rfl
          | cons d tl =>
            simp only [ltOk, Bool.or_eq_true] at hok
            rcases hok with hd | hng
            · have hd2 : d = '>' := by simpa using hd
              subst hd2
              cases f with
              | zero => simp at hlen
              | succ f2 =>
                have hstep : collapseNlAux (f2 + 1) ('>' :: tl) =
                    '>' :: collapseNlAux f2 tl := by
                  conv_lhs => unfold collapseNlAux
                  rw [if_neg (by decide : ¬('>' = '\n'))]
                rw [hstep]
                rfl
            · have hng2 : hasGt (d :: tl) = false := by simpa using hng
              exact ltOk_of_not_hasGt (collapseNlAux_hasGt_false hng2 f)
        simp [hltOk, hrec]
      · by_cases hnl : c = '\n'
        · subst hnl
          unfold collapseNlAux
          rw [if_pos rfl]
          dsimp only
          have hrest := ih (cs.drop (countLeadingNl cs))
            (by rw [List.length_drop]; omega)
            (tagInert_drop (tagInert_tail h) _)
          by_cases h3 : 3 ≤ countLeadingNl cs + 1
          · rw [if_pos h3]
            show tagInert ('\n' :: '\n' ::
              collapseNlAux f (cs.drop (countLeadingNl cs))) = true
            rw [tagInert_nl_nl]
            exact hrest
          · rw [if_neg h3]
            rw [tagInert_replicate_nl]
            exact hrest
        · unfold collapseNlAux
          rw [if_neg hnl]
          rw [tagInert_cons_ne hlt]
          exact ih cs hlen (tagInert_tail h)

theorem stripChars_eq (l : List Char) :
    stripChars l = List.rdropWhile isPyWs (l.dropWhile isPyWs) := rfl

theorem tagInert_append_left {l t : List Char}
    (h : tagInert (l ++ t) = true) : tagInert l = true := by
  induction l with
  | nil => rfl
  | cons c cs ih =>
    rw [List.cons_append] at h
    unfold tagInert at h ⊢
    simp only [Bool.and_eq_true] at h ⊢
    obtain ⟨h1, h2⟩ := h
    refine ⟨?_, ih h2⟩
    by_cases hc : c = '<'
    · rw [if_pos hc] at h1 ⊢
      cases cs with
      | nil => rfl
      | cons d tl =>
        rw [List.cons_append] at h1
        simp only [ltOk, Bool.or_eq_true] at h1 ⊢
        rcases h1 with hd | hng
        · exact Or.inl hd
        · right
          simp only [Bool.not_eq_true'] at hng ⊢
          simp only [hasGt, hasGt_append, Bool.or_eq_false_iff] at hng
          simp [hasGt, hng.1, hng.2.1]
    · rw [if_neg hc]

theorem noTriple_append_left {l t : List Char}
    (h : noTriple (l ++ t) = true) : noTriple l = true := by
  induction l with
  | nil => rfl
  | cons a l2 ih =>
    cases l2 with
    | nil => rfl
    | cons b l3 =>
      cases l3 with
      | nil => rfl
      | cons c rest =>
        have h2 : noTriple ((b :: c :: rest) ++ t) = true := by
          simp only [List.cons_append] at h
          unfold noTriple at h
          exact (Bool.and_eq_true_iff.mp h).2
        have hhd : (!(a = '\n' && b = '\n' && c = '\n')) = true := by
          simp only [List.cons_append] at h
          unfold noTriple at h
          exact (Bool.and_eq_true_iff.mp h).1
        unfold noTriple
        rw [ih h2, hhd]
        rfl

theorem tagInert_dropWhile (p : Char → Bool) {l : List Char}
    (h : tagInert l = true) : tagInert (l.dropWhile p) = true := by
  induction l with
  | nil => exact h
  | cons c cs ih =>
    rw [List.dropWhile_cons]
    by_cases hp : p c = true
    · rw [if_pos hp]
      exact ih (tagInert_tail h)
    · rw [if_neg hp]
      exact h

theorem noTriple_dropWhile (p : Char → Bool) {l : List Char}
    (h : noTriple l = true) : noTriple (l.dropWhile p) = true := by
  induction l with
  | nil => exact h
  | cons c cs ih =>
    rw [List.dropWhile_cons]
    by_cases hp : p c = true
    · rw [if_pos hp]
      exact ih (noTriple_tail h)
    · rw [if_neg hp]
      exact h

theorem tagInert_rdropWhile (p : Char → Bool) {l : List Char}
    (h : tagInert l = true) : tagInert (List.rdropWhile p l) = true := by
  obtain ⟨t, ht⟩ := List.rdropWhile_prefix p l
  rw [← ht] at h
  exact tagInert_append_left h

theorem noTriple_rdropWhile (p : Char → Bool) {l : List Char}
    (h : noTriple l = true) : noTriple (List.rdropWhile p l) = true := by
  obtain ⟨t, ht⟩ := List.rdropWhile_prefix p l
  rw [← ht] at h
  exact noTriple_append_left h

theorem stripChars_tagInert {l : List Char} (h : tagInert l = true) :
    tagInert (stripChars l) = true := by
  rw [stripChars_eq]
  exact tagInert_rdropWhile isPyWs (tagInert_dropWhile isPyWs h)

theorem stripChars_noTriple {l : List Char} (h : noTriple l = true) :
    noTriple (stripChars l) = true := by
  rw [stripChars_eq]
  exact noTriple_rdropWhile isPyWs (noTriple_dropWhile isPyWs h)

theorem dropWhile_cons_self {p : Char → Bool} {c : Char} {Y : List Char}
    (h : (c :: Y).dropWhile p = c :: Y) : p c = false := by
  by_contra hp
  have hp2 : p c = true := by simpa using hp
  rw [List.dropWhile_cons, if_pos hp2] at h
  have hle := (List.dropWhile_sublist p :
    List.Sublist (List.dropWhile p Y) Y).length_le
  have h2 := congrArg List.length h
  simp at h2
  omega

theorem dropWhile_rdropWhile_self {X : List Char}
    (hX : X.dropWhile isPyWs = X) :
    (List.rdropWhile isPyWs X).dropWhile isPyWs =
      List.rdropWhile isPyWs X := by
  cases hrd : List.rdropWhile isPyWs X with
  | nil => rfl
  | cons r0 rs =>
    obtain ⟨t, ht⟩ := List.rdropWhile_prefix isPyWs X
    rw [hrd] at ht
    rw [← ht] at hX
    rw [List.cons_append] at hX
    have hr0 : isPyWs r0 = false := dropWhile_cons_self hX
    rw [List.dropWhile_cons, if_neg (by simp [hr0])]

theorem stripChars_idem (l : List Char) :
    stripChars (stripChars l) = stripChars l := by
  rw [stripChars_eq l, stripChars_eq]
  rw [dropWhile_rdropWhile_self (List.dropWhile_idempotent isPyWs l)]
  rw [List.rdropWhile_idempotent]

theorem stripHtmlChars_fixed {r : List Char} (h1 : tagInert r = true)
    (h2 : noTriple r = true) (h3 : stripChars r = r) :
    stripHtmlChars r = r := by
  unfold stripHtmlChars subTag collapseNl
  rw [subTagAux_inert_id matchBrTail ['\n'] matchBrTail_gt
    (fun cs h => matchBrTail_noGt h) _ r h1]
  rw [subTagAux_inert_id matchCloseTail ['\n'] (fun tl => matchCloseTail_gt tl)
    (fun cs h => matchCloseTail_noGt h) _ r h1]
  rw [subTagAux_inert_id matchOpenTail [] matchOpenTail_gt
    (fun cs h => matchOpenTail_noGt h) _ r h1]
  rw [subTagAux_inert_id matchAnyTagTail [] (fun tl => matchAnyTagTail_gt tl)
    (fun cs h => matchAnyTagTail_noGt h) _ r h1]
  rw [collapseNlAux_id _ r h2]
  exact h3

theorem stripHtmlChars_idem (l : List Char) :
    stripHtmlChars (stripHtmlChars l) = stripHtmlChars l := by
  apply stripHtmlChars_fixed
  · unfold stripHtmlChars subTag collapseNl
    apply stripChars_tagInert
    apply collapseNlAux_tagInert _ _ le_rfl
    exact subTagAux_any_inert _ _ le_rfl
  · unfold stripHtmlChars collapseNl
    apply stripChars_noTriple
    exact collapseNlAux_noTriple _ _ le_rfl
  · unfold stripHtmlChars
    exact stripChars_idem _

/-- C9: the HTML normalizer maps `"<p>Hello</p><p>World</p>"` to exactly
`"Hello\nWorld"`, and it is idempotent on every input string: the output
contains no matchable tag pattern (`tagInert`), no run of three newlines
(`noTriple`), and no leading/trailing whitespace, so a second application
changes nothing. -/
theorem claim_C9_strip_html_normalizer :
    strip_html_tags "<p>Hello</p><p>World</p>" = "Hello\nWorld" ∧
    ∀ s : String,
      strip_html_tags (strip_html_tags s) = strip_html_tags s := by
  constructor
  · rfl
  · intro s
    unfold strip_html_tags
    exact congrArg String.mk (stripHtmlChars_idem s.data)
